import Mathlib

/-!
Shallow embedding of `src/rc4.rs` (RC4 stream cipher: keystream generator
`RC4RawStream` and streaming cipher adapter `RC4DataStream`).

Bytes are modelled as `Nat` values; every u8 addition of the source wraps
explicitly with `% 256` (the source is 2014-era Rust where integer overflow
wraps silently). The 256-entry state array is a `List Nat` of length 256.
`Reader::read` results (`IoResult`) are modelled with `Except`.
-/

/-- Models `state.swap(a, b)` on a slice: exchange entries `a` and `b`. -/
def swapL (l : List Nat) (a b : Nat) : List Nat :=
  (l.set a (l.getD b 0)).set b (l.getD a 0)

/-- The generator state of `RC4RawStream`: cursors `i`, `j` (u8) and the
256-entry permutation table. -/
structure RC4RawStream where
  i : Nat
  j : Nat
  state : List Nat
  deriving DecidableEq, Repr

/-- The body of the loop in `RC4RawStream::read` (one keystream byte):
`self.i += 1; self.j += self.state[i]; swap(i, j); nidx = state[i] + state[j];
buf[b] = state[nidx]`, every u8 addition wrapping at 256. -/
def prgaStep (s : RC4RawStream) : RC4RawStream × Nat :=
  let i := (s.i + 1) % 256
  let j := (s.j + s.state.getD i 0) % 256
  let st := swapL s.state i j
  let nidx := (st.getD i 0 + st.getD j 0) % 256
  (⟨i, j, st⟩, st.getD nidx 0)

/-- Models `RC4RawStream::read`: fills a buffer of the given length by running the
loop body once per position, in order, and returns `Ok(blen)` — modelled as
the final generator state together with the produced bytes (whose length is
the returned count). -/
def RC4RawStream.read : RC4RawStream → Nat → RC4RawStream × List Nat
  | s, 0 => (s, [])
  | s, n + 1 =>
    ((RC4RawStream.read (prgaStep s).1 n).1,
      (prgaStep s).2 :: (RC4RawStream.read (prgaStep s).1 n).2)

/-- Models `Reader::read_byte` on the raw stream: a read with a 1-byte buffer;
`none` would mean a failed read. -/
def RC4RawStream.readByte (s : RC4RawStream) : RC4RawStream × Option Nat :=
  ((s.read 1).1, (s.read 1).2.head?)

/-- The first loop of `RC4RawStream::new`: `state[i] = i as u8` over an
array initialised to zeroes. -/
def rc4InitState : List Nat :=
  (List.range 256).foldl (fun st i => st.set i (i % 256)) (List.replicate 256 0)

/-- The body of the scrambling loop of `RC4RawStream::new`:
`j += state[i] + key[i % klen]; state.swap(i, j)` — the inner u8 sum
`state[i] + key[i % klen]` wraps first, then the `+=` wraps. -/
def ksaStep (key : List Nat) (acc : List Nat × Nat) (i : Nat) : List Nat × Nat :=
  let j := (acc.2 + ((acc.1.getD i 0 + key.getD (i % key.length) 0) % 256)) % 256
  (swapL acc.1 i j, j)

/-- The key-scheduling loop of `RC4RawStream::new`: scramble the identity
table with transient cursor `j = 0`, for `i` in `0..256` in order. -/
def ksa (key : List Nat) : List Nat × Nat :=
  (List.range 256).foldl (ksaStep key) (rc4InitState, 0)

/-- Models `RC4RawStream::new`. With an empty key the source's `key[i % klen]`
divides by zero on the first loop iteration and the construction fails
(a Rust task failure); the failure is modelled as `none`. With a non-empty
key it returns the scheduled state with persistent cursors `i = 0, j = 0`. -/
def RC4RawStream.new (key : List Nat) : Option RC4RawStream :=
  if key.length = 0 then none else some ⟨0, 0, (ksa key).1⟩

/-- The generator value `RC4RawStream::new` produces on a non-empty key. -/
def mkGen (key : List Nat) : RC4RawStream :=
  ⟨0, 0, (ksa key).1⟩

/-- A byte source as consumed by `RC4DataStream`: from a source state and a
requested byte count, a `read` outcome (error, or the bytes actually
delivered — at most the requested count) and the successor source state. -/
def SourceRead (σ ε : Type) : Type :=
  σ → Nat → Except ε (List Nat) × σ

/-- Models `RC4DataStream`: a raw keystream generator plus the wrapped source. -/
structure RC4DataStream (σ : Type) where
  raw : RC4RawStream
  data : σ

/-- The XOR loop of `RC4DataStream::read`:
`for b in range(0, num) { buf[b] ^= self.raw.read_byte().unwrap(); }`. -/
def xorLoop : RC4RawStream → List Nat → RC4RawStream × List Nat
  | g, [] => (g, [])
  | g, b :: bs =>
    ((xorLoop g.readByte.1 bs).1,
      (b ^^^ (g.readByte.2.getD 0)) :: (xorLoop g.readByte.1 bs).2)

/-- Models `RC4DataStream::read`: delegate to the source; on `Err(e)` return the
error unchanged (the raw generator untouched); on `Ok(num)` XOR the `num`
delivered bytes with freshly produced keystream bytes and return `Ok(num)`
(modelled as the transformed bytes, whose length is the count). -/
def RC4DataStream.read (rd : SourceRead σ ε) (st : RC4DataStream σ) (n : Nat) :
    Except ε (List Nat) × RC4DataStream σ :=
  match rd st.data n with
  | (Except.error e, d') => (Except.error e, ⟨st.raw, d'⟩)
  | (Except.ok bytes, d') =>
    ((Except.ok (xorLoop st.raw bytes).2 : Except ε (List Nat)),
      ⟨(xorLoop st.raw bytes).1, d'⟩)

/-- Models `RC4DataStream::new`: builds a fresh `RC4RawStream` from the key (failing
exactly when raw construction fails) and stores the source. -/
def RC4DataStream.new (key : List Nat) (data : σ) : Option (RC4DataStream σ) :=
  (RC4RawStream.new key).map fun raw => ⟨raw, data⟩

/-- An in-memory byte source (models `MemReader`): delivers up to the
requested number of the remaining bytes. -/
def memRead : SourceRead (List Nat) Unit :=
  fun data n => (Except.ok (data.take n), data.drop n)

/-- A scripted source: each call delivers the next chunk of the script whole
(a source free to return fewer bytes than requested per call); an exhausted
script delivers zero bytes. -/
def scriptSource (ε : Type) : SourceRead (List (List Nat)) ε :=
  fun chunks _ =>
    match chunks with
    | [] => (Except.ok [], [])
    | c :: rest => (Except.ok c, rest)

/-- Drive `RC4DataStream.read` `k` times, each call requesting `n` bytes,
concatenating the successful outputs (stopping at an error). -/
def readAll (rd : SourceRead σ ε) (st : RC4DataStream σ) (n : Nat) :
    Nat → List Nat × RC4DataStream σ
  | 0 => ([], st)
  | k + 1 =>
    match RC4DataStream.read rd st n with
    | (Except.ok bs, st') =>
      ((bs ++ (readAll rd st' n k).1), (readAll rd st' n k).2)
    | (Except.error _, st') => ([], st')

/-- Spec wording of one byte production (claim C1): `i := (i + 1) mod 256`;
`j := (j + state[i]) mod 256`; swap `state[i]` and `state[j]`; return
`state[(state[i] + state[j]) mod 256]`. -/
def prgaSpecStep (s : RC4RawStream) : RC4RawStream × Nat :=
  let i := (s.i + 1) % 256
  let j := (s.j + s.state.getD i 0) % 256
  let st := swapL s.state i j
  (⟨i, j, st⟩, st.getD ((st.getD i 0 + st.getD j 0) % 256) 0)

/-- Spec wording of producing `n` bytes (claim C1): apply the step once per
buffer position, in order. -/
def specKeystream : RC4RawStream → Nat → RC4RawStream × List Nat
  | s, 0 => (s, [])
  | s, n + 1 =>
    ((specKeystream (prgaSpecStep s).1 n).1,
      (prgaSpecStep s).2 :: (specKeystream (prgaSpecStep s).1 n).2)

/-- Spec wording of one key-schedule round (claim C2):
`j := (j + state[p] + key[p mod key.len()]) mod 256`, then swap
`state[p]` and `state[j]`. -/
def ksaSpecStep (key : List Nat) (acc : List Nat × Nat) (p : Nat) : List Nat × Nat :=
  ((swapL acc.1 p ((acc.2 + acc.1.getD p 0 + key.getD (p % key.length) 0) % 256)),
    (acc.2 + acc.1.getD p 0 + key.getD (p % key.length) 0) % 256)

/-- Spec wording of the whole key schedule (claim C2): start from the
identity permutation and `j = 0`, run the round for `p = 0` to `255`. -/
def ksaSpec (key : List Nat) : List Nat :=
  ((List.range 256).foldl (ksaSpecStep key) (List.range 256, 0)).1

/-! ### Helper lemmas -/

set_option maxRecDepth 100000 in
theorem rc4InitState_eq : rc4InitState = List.range 256 := by decide

theorem wrap_add_mod (a b c : Nat) :
    (a + ((b + c) % 256)) % 256 = (a + b + c) % 256 := by
  rw [Nat.add_mod_mod, Nat.add_assoc]

theorem getD_set_self (l : List Nat) : ∀ (n v : Nat), n < l.length →
    (l.set n v).getD n 0 = v := by
  induction l with
  | nil => intro n v h; simp at h
  | cons a t ih =>
    intro n v h
    cases n with
    | zero => rfl
    | succ n =>
      simp only [List.set_cons_succ, List.getD_cons_succ]
      exact ih n v (Nat.lt_of_succ_lt_succ h)

theorem getD_set_ne (l : List Nat) : ∀ (m n v : Nat), m ≠ n →
    (l.set m v).getD n 0 = l.getD n 0 := by
  induction l with
  | nil => intro m n v _; cases m <;> rfl
  | cons a t ih =>
    intro m n v h
    cases m with
    | zero =>
      cases n with
      | zero => exact absurd rfl h
      | succ n => simp only [List.set_cons_zero, List.getD_cons_succ]
    | succ m =>
      cases n with
      | zero => simp only [List.set_cons_succ, List.getD_cons_zero]
      | succ n =>
        simp only [List.set_cons_succ, List.getD_cons_succ]
        exact ih m n v (fun e => h (by rw [e]))

theorem count_set_add (l : List Nat) : ∀ (n v x : Nat), n < l.length →
    (l.set n v).count x + (if l.getD n 0 = x then 1 else 0)
      = l.count x + (if v = x then 1 else 0) := by
  induction l with
  | nil => intro n v x h; simp at h
  | cons a t ih =>
    intro n v x h
    cases n with
    | zero =>
      simp only [List.set_cons_zero, List.getD_cons_zero, List.count_cons, beq_iff_eq]
      omega
    | succ n =>
      have ihn := ih n v x (Nat.lt_of_succ_lt_succ h)
      simp only [List.set_cons_succ, List.getD_cons_succ, List.count_cons, beq_iff_eq]
      omega

theorem swapL_perm (l : List Nat) (a b : Nat) (ha : a < l.length) (hb : b < l.length) :
    (swapL l a b).Perm l := by
  rw [List.perm_iff_count]
  intro x
  have hb' : b < (l.set a (l.getD b 0)).length := by simpa using hb
  have h1 := count_set_add l a (l.getD b 0) x ha
  have h2 := count_set_add (l.set a (l.getD b 0)) b (l.getD a 0) x hb'
  have h3 : (l.set a (l.getD b 0)).getD b 0 = l.getD b 0 := by
    by_cases hab : a = b
    · subst hab; exact getD_set_self l a _ ha
    · exact getD_set_ne l a b _ hab
  rw [h3] at h2
  unfold swapL
  omega

theorem prgaStep_state_perm (s : RC4RawStream) (h : s.state.Perm (List.range 256)) :
    (prgaStep s).1.state.Perm (List.range 256) := by
  have hlen : s.state.length = 256 := by simpa using h.length_eq
  have hi : (s.i + 1) % 256 < s.state.length := by
    rw [hlen]; exact Nat.mod_lt _ (by norm_num)
  have hj : (s.j + s.state.getD ((s.i + 1) % 256) 0) % 256 < s.state.length := by
    rw [hlen]; exact Nat.mod_lt _ (by norm_num)
  simpa [prgaStep] using (swapL_perm s.state _ _ hi hj).trans h

theorem ksaStep_state_perm (key : List Nat) (acc : List Nat × Nat) (i : Nat)
    (hi : i < 256) (h : acc.1.Perm (List.range 256)) :
    (ksaStep key acc i).1.Perm (List.range 256) := by
  have hlen : acc.1.length = 256 := by simpa using h.length_eq
  have hi' : i < acc.1.length := by omega
  have hj : (acc.2 + ((acc.1.getD i 0 + key.getD (i % key.length) 0) % 256)) % 256
      < acc.1.length := by
    rw [hlen]; exact Nat.mod_lt _ (by norm_num)
  simpa [ksaStep] using (swapL_perm acc.1 _ _ hi' hj).trans h

theorem ksa_fold_perm (key : List Nat) :
    ∀ (l : List Nat) (acc : List Nat × Nat), (∀ x ∈ l, x < 256) →
      acc.1.Perm (List.range 256) → ((l.foldl (ksaStep key) acc).1).Perm (List.range 256)
  | [], _, _, h => h
  | i :: t, acc, hl, h => by
    have h1 := ksaStep_state_perm key acc i (hl i (by simp)) h
    simpa using ksa_fold_perm key t (ksaStep key acc i)
      (fun x hx => hl x (by simp [hx])) h1

theorem ksa_state_perm (key : List Nat) : (ksa key).1.Perm (List.range 256) := by
  refine ksa_fold_perm key (List.range 256) (rc4InitState, 0) ?_ ?_
  · intro x hx; exact List.mem_range.mp hx
  · rw [rc4InitState_eq]

theorem read_state_perm : ∀ (n : Nat) (s : RC4RawStream),
    s.state.Perm (List.range 256) → ((s.read n).1).state.Perm (List.range 256)
  | 0, _, h => h
  | n + 1, s, h => by
    simpa [RC4RawStream.read] using
      read_state_perm n (prgaStep s).1 (prgaStep_state_perm s h)

theorem readByte_eq (s : RC4RawStream) :
    s.readByte = ((prgaStep s).1, some (prgaStep s).2) := rfl

theorem read_len : ∀ (n : Nat) (s : RC4RawStream), (s.read n).2.length = n
  | 0, _ => rfl
  | n + 1, s => by simp [RC4RawStream.read, read_len n]

theorem read_split : ∀ (a : Nat) (s : RC4RawStream) (b : Nat),
    s.read (a + b) = ((((s.read a).1).read b).1, (s.read a).2 ++ (((s.read a).1).read b).2)
  | 0, s, b => by simp [RC4RawStream.read, Nat.zero_add]
  | a + 1, s, b => by
    have ih := read_split a (prgaStep s).1 b
    rw [Nat.succ_add]
    simp [RC4RawStream.read, ih]

theorem xorLoop_eq : ∀ (bs : List Nat) (g : RC4RawStream),
    xorLoop g bs
      = ((g.read bs.length).1, List.zipWith (fun a b => a ^^^ b) bs (g.read bs.length).2)
  | [], _ => rfl
  | b :: bs, g => by
    have ih := xorLoop_eq bs (prgaStep g).1
    simp [xorLoop, readByte_eq, RC4RawStream.read, ih]

theorem xorLoop_append : ∀ (xs : List Nat) (g : RC4RawStream) (ys : List Nat),
    xorLoop g (xs ++ ys) = ((xorLoop (xorLoop g xs).1 ys).1,
      (xorLoop g xs).2 ++ (xorLoop (xorLoop g xs).1 ys).2)
  | [], g, ys => by simp [xorLoop]
  | x :: xs, g, ys => by
    have ih := xorLoop_append xs (g.readByte).1 ys
    simp [xorLoop, ih]

theorem xorLoop_len : ∀ (bs : List Nat) (g : RC4RawStream),
    (xorLoop g bs).2.length = bs.length
  | [], _ => rfl
  | b :: bs, g => by simp [xorLoop, xorLoop_len bs]

theorem zip_xor_cancel (d : List Nat) : ∀ (k : List Nat), d.length = k.length →
    List.zipWith (fun a b => a ^^^ b) (List.zipWith (fun a b => a ^^^ b) d k) k = d := by
  induction d with
  | nil => intro k _; simp
  | cons a ds ih =>
    intro k h
    cases k with
    | nil => simp at h
    | cons b ks =>
      have ihn := ih ks (by simpa using h)
      simp [ihn, Nat.xor_assoc, Nat.xor_self, Nat.xor_zero]

/-- On a non-empty key, `RC4RawStream::new` succeeds with `mkGen`. -/
theorem new_eq_mkGen (key : List Nat) (hk : key ≠ []) :
    RC4RawStream.new key = some (mkGen key) := by
  have hlen : ¬ key.length = 0 := by simpa using hk
  rw [RC4RawStream.new, if_neg hlen]
  rfl

/-! ### Claim theorems -/

/-- C1: every byte-production call performs exactly `i := (i + 1) mod 256`;
`j := (j + state[i]) mod 256`; swap `state[i]`/`state[j]`; return
`state[(state[i] + state[j]) mod 256]` (all additions wrapping at 256), and
producing `n` bytes applies this step once per buffer position in order. -/
theorem rc4_prga_step_correct (s : RC4RawStream) (n : Nat) :
    prgaStep s = prgaSpecStep s ∧ s.read n = specKeystream s n := by
  refine ⟨rfl, ?_⟩
  induction n generalizing s with
  | zero => rfl
  | succ n ih =>
    have h : prgaSpecStep = prgaStep := rfl
    simp [RC4RawStream.read, specKeystream, h, ih]

/-- C2: on a non-empty key, construction initialises the state to the identity
permutation, scrambles it with `j := (j + state[p] + key[p mod key.len()]) mod 256`
followed by a swap for `p = 0` to `255` in order, and sets the persistent
cursors `i = 0`, `j = 0`. -/
theorem rc4_key_schedule_correct (key : List Nat) (hk : key ≠ []) :
    RC4RawStream.new key = some ⟨0, 0, ksaSpec key⟩ := by
  have hlen : ¬ key.length = 0 := by simpa using hk
  have hstep : ksaStep key = ksaSpecStep key := by
    funext acc i
    simp only [ksaStep, ksaSpecStep]
    rw [wrap_add_mod]
  rw [RC4RawStream.new, if_neg hlen]
  simp [ksa, ksaSpec, hstep, rc4InitState_eq]

theorem rc4_key_schedule_correct_witness :
    RC4RawStream.new [1] = some ⟨0, 0, ksaSpec [1]⟩ :=
  rc4_key_schedule_correct [1] (by decide)

set_option maxRecDepth 100000 in
/-- Decomposition of the key-schedule index list into blocks of 32. -/
theorem range256_chunks : List.range 256 = [0, 1, 2, 3, 4, 5, 6, 7, 8, 9, 10, 11, 12, 13, 14, 15, 16, 17, 18, 19, 20, 21, 22, 23, 24, 25, 26, 27, 28, 29, 30, 31] ++ [32, 33, 34, 35, 36, 37, 38, 39, 40, 41, 42, 43, 44, 45, 46, 47, 48, 49, 50, 51, 52, 53, 54, 55, 56, 57, 58, 59, 60, 61, 62, 63] ++ [64, 65, 66, 67, 68, 69, 70, 71, 72, 73, 74, 75, 76, 77, 78, 79, 80, 81, 82, 83, 84, 85, 86, 87, 88, 89, 90, 91, 92, 93, 94, 95] ++ [96, 97, 98, 99, 100, 101, 102, 103, 104, 105, 106, 107, 108, 109, 110, 111, 112, 113, 114, 115, 116, 117, 118, 119, 120, 121, 122, 123, 124, 125, 126, 127] ++ [128, 129, 130, 131, 132, 133, 134, 135, 136, 137, 138, 139, 140, 141, 142, 143, 144, 145, 146, 147, 148, 149, 150, 151, 152, 153, 154, 155, 156, 157, 158, 159] ++ [160, 161, 162, 163, 164, 165, 166, 167, 168, 169, 170, 171, 172, 173, 174, 175, 176, 177, 178, 179, 180, 181, 182, 183, 184, 185, 186, 187, 188, 189, 190, 191] ++ [192, 193, 194, 195, 196, 197, 198, 199, 200, 201, 202, 203, 204, 205, 206, 207, 208, 209, 210, 211, 212, 213, 214, 215, 216, 217, 218, 219, 220, 221, 222, 223] ++ [224, 225, 226, 227, 228, 229, 230, 231, 232, 233, 234, 235, 236, 237, 238, 239, 240, 241, 242, 243, 244, 245, 246, 247, 248, 249, 250, 251, 252, 253, 254, 255] := by decide

set_option maxRecDepth 100000 in
set_option maxHeartbeats 2000000 in
/-- Value of the key schedule on the "Key" test key, computed in blocks. -/
theorem ksaKey_eq : ksa [75, 101, 121] = ([75, 51, 132, 157, 192, 200, 29, 168, 74, 243, 131, 228, 18, 112, 130, 144, 91, 143, 236, 34, 41, 185, 204, 92, 191, 216, 186, 14, 110, 77, 8, 35, 188, 27, 103, 137, 182, 64, 59, 105, 215, 247, 238, 126, 138, 26, 227, 55, 21, 84, 104, 78, 135, 113, 255, 172, 56, 89, 187, 28, 62, 32, 45, 65, 36, 251, 152, 116, 189, 7, 108, 46, 202, 162, 159, 83, 31, 154, 11, 231, 106, 13, 0, 217, 20, 229, 102, 118, 82, 85, 176, 97, 214, 151, 6, 4, 142, 245, 134, 60, 225, 165, 3, 39, 86, 101, 90, 127, 197, 72, 117, 146, 47, 195, 42, 128, 100, 253, 174, 209, 25, 239, 114, 219, 244, 234, 163, 190, 183, 235, 54, 98, 153, 121, 123, 38, 40, 180, 179, 139, 203, 70, 5, 24, 43, 199, 224, 213, 210, 220, 173, 241, 23, 88, 196, 79, 242, 58, 9, 73, 141, 160, 193, 181, 19, 233, 63, 80, 30, 81, 111, 226, 175, 150, 207, 222, 17, 119, 230, 96, 71, 87, 133, 198, 95, 169, 155, 212, 66, 49, 205, 2, 76, 115, 37, 194, 57, 22, 223, 178, 16, 12, 93, 237, 240, 33, 206, 69, 53, 158, 148, 15, 122, 136, 161, 246, 201, 44, 171, 67, 184, 109, 252, 50, 170, 145, 149, 140, 94, 218, 156, 208, 1, 129, 68, 48, 254, 164, 250, 167, 248, 125, 177, 166, 232, 120, 107, 99, 249, 221, 52, 124, 10, 211, 61, 147], 54) := by
  have h1 : List.foldl (ksaStep [75, 101, 121]) (rc4InitState, 0) [0, 1, 2, 3, 4, 5, 6, 7, 8, 9, 10, 11, 12, 13, 14, 15, 16, 17, 18, 19, 20, 21, 22, 23, 24, 25, 26, 27, 28, 29, 30, 31]
      = ([75, 177, 44, 122, 227, 16, 178, 30, 159, 243, 98, 230, 61, 175, 54, 144, 97, 143, 236, 100, 241, 81, 204, 92, 191, 12, 208, 14, 183, 77, 8, 35, 32, 33, 34, 31, 36, 37, 38, 39, 40, 41, 42, 43, 2, 45, 46, 47, 48, 49, 50, 51, 52, 53, 27, 55, 56, 57, 58, 59, 60, 25, 62, 63, 64, 65, 66, 67, 68, 69, 70, 71, 72, 73, 74, 0, 76, 29, 78, 79, 80, 21, 82, 83, 84, 85, 86, 87, 88, 89, 90, 91, 23, 93, 94, 95, 96, 5, 10, 99, 19, 101, 102, 103, 104, 105, 106, 107, 108, 109, 110, 111, 112, 113, 114, 115, 116, 117, 118, 119, 120, 121, 3, 123, 124, 125, 126, 127, 128, 129, 130, 131, 132, 133, 134, 135, 136, 137, 138, 139, 140, 141, 142, 17, 15, 145, 146, 147, 148, 149, 150, 151, 152, 153, 154, 155, 156, 157, 158, 7, 160, 161, 162, 163, 164, 165, 166, 167, 168, 169, 170, 171, 172, 173, 174, 13, 176, 1, 6, 179, 180, 181, 182, 28, 184, 185, 186, 187, 188, 189, 190, 24, 192, 193, 194, 195, 196, 197, 198, 199, 200, 201, 202, 203, 22, 205, 206, 207, 26, 209, 210, 211, 212, 213, 214, 215, 216, 217, 218, 219, 220, 221, 222, 223, 224, 225, 226, 4, 228, 229, 11, 231, 232, 233, 234, 235, 18, 237, 238, 239, 240, 20, 242, 9, 244, 245, 246, 247, 248, 249, 250, 251, 252, 253, 254, 255], 35) := by decide
  have h2 : List.foldl (ksaStep [75, 101, 121]) ([75, 177, 44, 122, 227, 16, 178, 30, 159, 243, 98, 230, 61, 175, 54, 144, 97, 143, 236, 100, 241, 81, 204, 92, 191, 12, 208, 14, 183, 77, 8, 35, 32, 33, 34, 31, 36, 37, 38, 39, 40, 41, 42, 43, 2, 45, 46, 47, 48, 49, 50, 51, 52, 53, 27, 55, 56, 57, 58, 59, 60, 25, 62, 63, 64, 65, 66, 67, 68, 69, 70, 71, 72, 73, 74, 0, 76, 29, 78, 79, 80, 21, 82, 83, 84, 85, 86, 87, 88, 89, 90, 91, 23, 93, 94, 95, 96, 5, 10, 99, 19, 101, 102, 103, 104, 105, 106, 107, 108, 109, 110, 111, 112, 113, 114, 115, 116, 117, 118, 119, 120, 121, 3, 123, 124, 125, 126, 127, 128, 129, 130, 131, 132, 133, 134, 135, 136, 137, 138, 139, 140, 141, 142, 17, 15, 145, 146, 147, 148, 149, 150, 151, 152, 153, 154, 155, 156, 157, 158, 7, 160, 161, 162, 163, 164, 165, 166, 167, 168, 169, 170, 171, 172, 173, 174, 13, 176, 1, 6, 179, 180, 181, 182, 28, 184, 185, 186, 187, 188, 189, 190, 24, 192, 193, 194, 195, 196, 197, 198, 199, 200, 201, 202, 203, 22, 205, 206, 207, 26, 209, 210, 211, 212, 213, 214, 215, 216, 217, 218, 219, 220, 221, 222, 223, 224, 225, 226, 4, 228, 229, 11, 231, 232, 233, 234, 235, 18, 237, 238, 239, 240, 20, 242, 9, 244, 245, 246, 247, 248, 249, 250, 251, 252, 253, 254, 255], 35) [32, 33, 34, 35, 36, 37, 38, 39, 40, 41, 42, 43, 44, 45, 46, 47, 48, 49, 50, 51, 52, 53, 54, 55, 56, 57, 58, 59, 60, 61, 62, 63]
      = ([75, 177, 44, 58, 46, 16, 178, 30, 159, 243, 98, 230, 61, 175, 54, 144, 97, 143, 236, 100, 241, 81, 204, 92, 191, 12, 208, 14, 183, 77, 8, 35, 188, 40, 13, 71, 182, 64, 223, 48, 215, 121, 238, 126, 249, 53, 227, 55, 21, 189, 104, 11, 127, 113, 147, 172, 224, 19, 122, 28, 62, 32, 45, 251, 37, 65, 66, 67, 68, 69, 70, 31, 72, 73, 74, 0, 76, 29, 78, 79, 80, 39, 82, 83, 84, 85, 86, 87, 88, 89, 90, 91, 23, 93, 94, 95, 96, 5, 10, 99, 57, 101, 102, 103, 50, 105, 106, 107, 108, 109, 110, 111, 112, 60, 114, 115, 116, 117, 118, 119, 120, 41, 3, 123, 124, 125, 43, 52, 128, 129, 130, 131, 132, 133, 134, 135, 136, 137, 138, 139, 140, 141, 142, 17, 15, 145, 146, 27, 148, 149, 150, 151, 152, 153, 154, 155, 156, 157, 158, 7, 160, 161, 162, 163, 164, 165, 166, 167, 168, 169, 170, 171, 47, 173, 174, 34, 176, 1, 6, 179, 180, 181, 36, 59, 184, 185, 186, 187, 25, 49, 190, 24, 192, 193, 194, 195, 196, 197, 198, 199, 200, 201, 202, 203, 22, 205, 206, 207, 26, 209, 210, 211, 212, 213, 214, 33, 216, 217, 218, 219, 220, 221, 222, 38, 56, 225, 226, 4, 228, 229, 51, 231, 232, 233, 234, 235, 18, 237, 42, 239, 240, 20, 242, 9, 244, 245, 246, 247, 248, 2, 250, 63, 252, 253, 254, 255], 251) := by decide
  have h3 : List.foldl (ksaStep [75, 101, 121]) ([75, 177, 44, 58, 46, 16, 178, 30, 159, 243, 98, 230, 61, 175, 54, 144, 97, 143, 236, 100, 241, 81, 204, 92, 191, 12, 208, 14, 183, 77, 8, 35, 188, 40, 13, 71, 182, 64, 223, 48, 215, 121, 238, 126, 249, 53, 227, 55, 21, 189, 104, 11, 127, 113, 147, 172, 224, 19, 122, 28, 62, 32, 45, 251, 37, 65, 66, 67, 68, 69, 70, 31, 72, 73, 74, 0, 76, 29, 78, 79, 80, 39, 82, 83, 84, 85, 86, 87, 88, 89, 90, 91, 23, 93, 94, 95, 96, 5, 10, 99, 57, 101, 102, 103, 50, 105, 106, 107, 108, 109, 110, 111, 112, 60, 114, 115, 116, 117, 118, 119, 120, 41, 3, 123, 124, 125, 43, 52, 128, 129, 130, 131, 132, 133, 134, 135, 136, 137, 138, 139, 140, 141, 142, 17, 15, 145, 146, 27, 148, 149, 150, 151, 152, 153, 154, 155, 156, 157, 158, 7, 160, 161, 162, 163, 164, 165, 166, 167, 168, 169, 170, 171, 47, 173, 174, 34, 176, 1, 6, 179, 180, 181, 36, 59, 184, 185, 186, 187, 25, 49, 190, 24, 192, 193, 194, 195, 196, 197, 198, 199, 200, 201, 202, 203, 22, 205, 206, 207, 26, 209, 210, 211, 212, 213, 214, 33, 216, 217, 218, 219, 220, 221, 222, 38, 56, 225, 226, 4, 228, 229, 51, 231, 232, 233, 234, 235, 18, 237, 42, 239, 240, 20, 242, 9, 244, 245, 246, 247, 248, 2, 250, 63, 252, 253, 254, 255], 251) [64, 65, 66, 67, 68, 69, 70, 71, 72, 73, 74, 75, 76, 77, 78, 79, 80, 81, 82, 83, 84, 85, 86, 87, 88, 89, 90, 91, 92, 93, 94, 95]
      = ([75, 177, 44, 58, 76, 16, 178, 30, 74, 243, 98, 94, 61, 175, 54, 144, 91, 143, 236, 100, 241, 81, 204, 92, 191, 12, 208, 14, 87, 77, 8, 35, 188, 40, 39, 71, 182, 64, 223, 48, 215, 121, 238, 126, 249, 53, 227, 55, 21, 68, 104, 78, 127, 113, 147, 172, 224, 19, 122, 28, 62, 32, 45, 65, 133, 251, 22, 116, 189, 73, 108, 46, 93, 193, 159, 83, 31, 154, 11, 231, 90, 13, 0, 217, 20, 171, 3, 183, 82, 85, 176, 97, 160, 151, 230, 4, 96, 5, 10, 99, 57, 101, 102, 103, 50, 105, 106, 107, 70, 109, 110, 111, 112, 60, 114, 115, 67, 117, 118, 119, 120, 41, 86, 123, 124, 125, 43, 52, 128, 129, 130, 131, 132, 37, 134, 135, 136, 137, 138, 139, 140, 141, 142, 17, 15, 145, 146, 27, 148, 149, 150, 72, 152, 153, 29, 155, 156, 157, 158, 7, 23, 161, 162, 163, 164, 165, 166, 167, 168, 169, 170, 89, 47, 173, 174, 34, 80, 1, 6, 179, 180, 181, 36, 59, 184, 185, 186, 187, 25, 49, 190, 24, 192, 69, 194, 195, 196, 197, 198, 199, 200, 201, 202, 203, 66, 205, 206, 207, 26, 209, 210, 211, 212, 213, 214, 33, 216, 88, 218, 219, 220, 221, 222, 38, 56, 225, 226, 95, 228, 229, 51, 79, 232, 233, 234, 235, 18, 237, 42, 239, 240, 84, 242, 9, 244, 245, 246, 247, 248, 2, 250, 63, 252, 253, 254, 255], 227) := by decide
  have h4 : List.foldl (ksaStep [75, 101, 121]) ([75, 177, 44, 58, 76, 16, 178, 30, 74, 243, 98, 94, 61, 175, 54, 144, 91, 143, 236, 100, 241, 81, 204, 92, 191, 12, 208, 14, 87, 77, 8, 35, 188, 40, 39, 71, 182, 64, 223, 48, 215, 121, 238, 126, 249, 53, 227, 55, 21, 68, 104, 78, 127, 113, 147, 172, 224, 19, 122, 28, 62, 32, 45, 65, 133, 251, 22, 116, 189, 73, 108, 46, 93, 193, 159, 83, 31, 154, 11, 231, 90, 13, 0, 217, 20, 171, 3, 183, 82, 85, 176, 97, 160, 151, 230, 4, 96, 5, 10, 99, 57, 101, 102, 103, 50, 105, 106, 107, 70, 109, 110, 111, 112, 60, 114, 115, 67, 117, 118, 119, 120, 41, 86, 123, 124, 125, 43, 52, 128, 129, 130, 131, 132, 37, 134, 135, 136, 137, 138, 139, 140, 141, 142, 17, 15, 145, 146, 27, 148, 149, 150, 72, 152, 153, 29, 155, 156, 157, 158, 7, 23, 161, 162, 163, 164, 165, 166, 167, 168, 169, 170, 89, 47, 173, 174, 34, 80, 1, 6, 179, 180, 181, 36, 59, 184, 185, 186, 187, 25, 49, 190, 24, 192, 69, 194, 195, 196, 197, 198, 199, 200, 201, 202, 203, 66, 205, 206, 207, 26, 209, 210, 211, 212, 213, 214, 33, 216, 88, 218, 219, 220, 221, 222, 38, 56, 225, 226, 95, 228, 229, 51, 79, 232, 233, 234, 235, 18, 237, 42, 239, 240, 84, 242, 9, 244, 245, 246, 247, 248, 2, 250, 63, 252, 253, 254, 255], 227) [96, 97, 98, 99, 100, 101, 102, 103, 104, 105, 106, 107, 108, 109, 110, 111, 112, 113, 114, 115, 116, 117, 118, 119, 120, 121, 122, 123, 124, 125, 126, 127]
      = ([75, 177, 44, 58, 76, 16, 178, 30, 74, 243, 98, 94, 61, 112, 54, 144, 91, 143, 236, 10, 241, 81, 204, 92, 191, 12, 208, 14, 87, 77, 8, 35, 188, 40, 103, 71, 182, 64, 223, 48, 215, 99, 238, 126, 249, 53, 227, 55, 21, 68, 104, 78, 107, 113, 147, 172, 111, 19, 122, 28, 62, 32, 45, 65, 133, 251, 22, 116, 189, 73, 108, 46, 93, 193, 159, 83, 31, 154, 11, 231, 106, 13, 0, 217, 20, 171, 102, 115, 82, 85, 176, 97, 160, 151, 230, 4, 142, 120, 123, 121, 199, 165, 3, 39, 205, 129, 90, 127, 197, 72, 43, 224, 175, 194, 52, 183, 100, 211, 174, 158, 248, 239, 114, 67, 244, 234, 163, 190, 128, 105, 130, 131, 132, 37, 134, 135, 136, 137, 138, 139, 140, 141, 96, 17, 15, 145, 146, 27, 148, 149, 150, 109, 152, 153, 29, 155, 156, 157, 119, 7, 23, 161, 162, 110, 164, 101, 166, 167, 168, 169, 170, 89, 47, 173, 118, 34, 80, 1, 6, 179, 180, 181, 36, 59, 184, 185, 186, 187, 25, 49, 86, 24, 192, 69, 60, 195, 196, 70, 198, 57, 200, 201, 202, 203, 66, 50, 206, 207, 26, 209, 210, 117, 212, 213, 214, 33, 216, 88, 218, 219, 220, 221, 222, 38, 56, 225, 226, 95, 228, 229, 51, 79, 232, 233, 125, 235, 18, 237, 42, 41, 240, 84, 242, 9, 124, 245, 246, 247, 5, 2, 250, 63, 252, 253, 254, 255], 122) := by decide
  have h5 : List.foldl (ksaStep [75, 101, 121]) ([75, 177, 44, 58, 76, 16, 178, 30, 74, 243, 98, 94, 61, 112, 54, 144, 91, 143, 236, 10, 241, 81, 204, 92, 191, 12, 208, 14, 87, 77, 8, 35, 188, 40, 103, 71, 182, 64, 223, 48, 215, 99, 238, 126, 249, 53, 227, 55, 21, 68, 104, 78, 107, 113, 147, 172, 111, 19, 122, 28, 62, 32, 45, 65, 133, 251, 22, 116, 189, 73, 108, 46, 93, 193, 159, 83, 31, 154, 11, 231, 106, 13, 0, 217, 20, 171, 102, 115, 82, 85, 176, 97, 160, 151, 230, 4, 142, 120, 123, 121, 199, 165, 3, 39, 205, 129, 90, 127, 197, 72, 43, 224, 175, 194, 52, 183, 100, 211, 174, 158, 248, 239, 114, 67, 244, 234, 163, 190, 128, 105, 130, 131, 132, 37, 134, 135, 136, 137, 138, 139, 140, 141, 96, 17, 15, 145, 146, 27, 148, 149, 150, 109, 152, 153, 29, 155, 156, 157, 119, 7, 23, 161, 162, 110, 164, 101, 166, 167, 168, 169, 170, 89, 47, 173, 118, 34, 80, 1, 6, 179, 180, 181, 36, 59, 184, 185, 186, 187, 25, 49, 86, 24, 192, 69, 60, 195, 196, 70, 198, 57, 200, 201, 202, 203, 66, 50, 206, 207, 26, 209, 210, 117, 212, 213, 214, 33, 216, 88, 218, 219, 220, 221, 222, 38, 56, 225, 226, 95, 228, 229, 51, 79, 232, 233, 125, 235, 18, 237, 42, 41, 240, 84, 242, 9, 124, 245, 246, 247, 5, 2, 250, 63, 252, 253, 254, 255], 122) [128, 129, 130, 131, 132, 133, 134, 135, 136, 137, 138, 139, 140, 141, 142, 143, 144, 145, 146, 147, 148, 149, 150, 151, 152, 153, 154, 155, 156, 157, 158, 159]
      = ([75, 156, 44, 157, 76, 16, 29, 30, 74, 243, 131, 94, 61, 112, 130, 144, 91, 143, 236, 10, 17, 81, 204, 92, 191, 12, 155, 14, 87, 77, 8, 35, 188, 136, 103, 137, 182, 64, 223, 105, 215, 99, 238, 126, 249, 53, 227, 55, 21, 68, 104, 78, 135, 113, 147, 172, 111, 19, 122, 28, 62, 32, 45, 65, 133, 251, 22, 116, 189, 7, 108, 46, 93, 193, 159, 83, 31, 154, 11, 231, 106, 13, 0, 217, 20, 171, 102, 115, 82, 85, 176, 97, 160, 151, 230, 4, 142, 120, 134, 37, 145, 165, 3, 39, 205, 129, 90, 127, 197, 72, 15, 146, 175, 194, 52, 128, 100, 211, 174, 158, 248, 239, 114, 67, 244, 234, 163, 190, 183, 48, 54, 98, 153, 121, 123, 107, 40, 71, 96, 232, 237, 70, 5, 109, 43, 199, 224, 213, 206, 220, 49, 241, 23, 88, 178, 208, 177, 58, 9, 73, 152, 161, 162, 110, 164, 101, 166, 167, 168, 169, 170, 89, 47, 173, 118, 34, 80, 1, 6, 179, 180, 181, 36, 59, 184, 185, 186, 187, 25, 150, 86, 24, 192, 69, 60, 195, 196, 141, 198, 57, 200, 201, 202, 203, 66, 50, 148, 207, 26, 209, 210, 117, 212, 27, 214, 33, 216, 132, 218, 219, 149, 221, 222, 38, 56, 225, 226, 95, 228, 229, 51, 79, 139, 233, 125, 235, 18, 140, 42, 41, 240, 84, 242, 119, 124, 245, 246, 247, 138, 2, 250, 63, 252, 253, 254, 255], 69) := by decide
  have h6 : List.foldl (ksaStep [75, 101, 121]) ([75, 156, 44, 157, 76, 16, 29, 30, 74, 243, 131, 94, 61, 112, 130, 144, 91, 143, 236, 10, 17, 81, 204, 92, 191, 12, 155, 14, 87, 77, 8, 35, 188, 136, 103, 137, 182, 64, 223, 105, 215, 99, 238, 126, 249, 53, 227, 55, 21, 68, 104, 78, 135, 113, 147, 172, 111, 19, 122, 28, 62, 32, 45, 65, 133, 251, 22, 116, 189, 7, 108, 46, 93, 193, 159, 83, 31, 154, 11, 231, 106, 13, 0, 217, 20, 171, 102, 115, 82, 85, 176, 97, 160, 151, 230, 4, 142, 120, 134, 37, 145, 165, 3, 39, 205, 129, 90, 127, 197, 72, 15, 146, 175, 194, 52, 128, 100, 211, 174, 158, 248, 239, 114, 67, 244, 234, 163, 190, 183, 48, 54, 98, 153, 121, 123, 107, 40, 71, 96, 232, 237, 70, 5, 109, 43, 199, 224, 213, 206, 220, 49, 241, 23, 88, 178, 208, 177, 58, 9, 73, 152, 161, 162, 110, 164, 101, 166, 167, 168, 169, 170, 89, 47, 173, 118, 34, 80, 1, 6, 179, 180, 181, 36, 59, 184, 185, 186, 187, 25, 150, 86, 24, 192, 69, 60, 195, 196, 141, 198, 57, 200, 201, 202, 203, 66, 50, 148, 207, 26, 209, 210, 117, 212, 27, 214, 33, 216, 132, 218, 219, 149, 221, 222, 38, 56, 225, 226, 95, 228, 229, 51, 79, 139, 233, 125, 235, 18, 140, 42, 41, 240, 84, 242, 119, 124, 245, 246, 247, 138, 2, 250, 63, 252, 253, 254, 255], 69) [160, 161, 162, 163, 164, 165, 166, 167, 168, 169, 170, 171, 172, 173, 174, 175, 176, 177, 178, 179, 180, 181, 182, 183, 184, 185, 186, 187, 188, 189, 190, 191]
      = ([75, 156, 44, 157, 76, 16, 29, 168, 74, 243, 131, 94, 61, 112, 130, 144, 91, 143, 236, 10, 167, 185, 204, 92, 191, 12, 186, 14, 110, 77, 8, 35, 188, 136, 103, 137, 182, 64, 223, 105, 215, 99, 238, 126, 249, 53, 227, 55, 21, 68, 104, 78, 135, 113, 147, 172, 170, 164, 187, 28, 62, 32, 45, 65, 36, 251, 152, 116, 189, 7, 108, 46, 93, 162, 159, 83, 31, 154, 11, 231, 106, 13, 0, 217, 20, 171, 102, 118, 82, 85, 176, 97, 161, 151, 6, 4, 142, 120, 134, 37, 145, 165, 3, 39, 86, 129, 90, 127, 197, 72, 15, 146, 47, 194, 52, 128, 100, 211, 174, 158, 248, 239, 114, 67, 244, 234, 163, 190, 183, 48, 54, 98, 153, 121, 123, 107, 40, 180, 179, 232, 237, 70, 5, 109, 43, 199, 224, 213, 206, 220, 173, 241, 23, 88, 178, 208, 177, 58, 9, 73, 22, 160, 193, 181, 19, 233, 124, 80, 30, 81, 111, 149, 175, 150, 115, 222, 17, 119, 230, 96, 71, 87, 133, 198, 95, 169, 155, 122, 66, 49, 205, 2, 192, 69, 60, 195, 196, 141, 59, 57, 200, 201, 202, 203, 25, 50, 148, 207, 26, 209, 210, 117, 212, 27, 214, 33, 216, 132, 218, 219, 89, 221, 34, 38, 56, 225, 226, 184, 228, 229, 51, 79, 139, 101, 125, 235, 18, 140, 42, 41, 240, 84, 242, 1, 166, 245, 246, 247, 138, 24, 250, 63, 252, 253, 254, 255], 249) := by decide
  have h7 : List.foldl (ksaStep [75, 101, 121]) ([75, 156, 44, 157, 76, 16, 29, 168, 74, 243, 131, 94, 61, 112, 130, 144, 91, 143, 236, 10, 167, 185, 204, 92, 191, 12, 186, 14, 110, 77, 8, 35, 188, 136, 103, 137, 182, 64, 223, 105, 215, 99, 238, 126, 249, 53, 227, 55, 21, 68, 104, 78, 135, 113, 147, 172, 170, 164, 187, 28, 62, 32, 45, 65, 36, 251, 152, 116, 189, 7, 108, 46, 93, 162, 159, 83, 31, 154, 11, 231, 106, 13, 0, 217, 20, 171, 102, 118, 82, 85, 176, 97, 161, 151, 6, 4, 142, 120, 134, 37, 145, 165, 3, 39, 86, 129, 90, 127, 197, 72, 15, 146, 47, 194, 52, 128, 100, 211, 174, 158, 248, 239, 114, 67, 244, 234, 163, 190, 183, 48, 54, 98, 153, 121, 123, 107, 40, 180, 179, 232, 237, 70, 5, 109, 43, 199, 224, 213, 206, 220, 173, 241, 23, 88, 178, 208, 177, 58, 9, 73, 22, 160, 193, 181, 19, 233, 124, 80, 30, 81, 111, 149, 175, 150, 115, 222, 17, 119, 230, 96, 71, 87, 133, 198, 95, 169, 155, 122, 66, 49, 205, 2, 192, 69, 60, 195, 196, 141, 59, 57, 200, 201, 202, 203, 25, 50, 148, 207, 26, 209, 210, 117, 212, 27, 214, 33, 216, 132, 218, 219, 89, 221, 34, 38, 56, 225, 226, 184, 228, 229, 51, 79, 139, 101, 125, 235, 18, 140, 42, 41, 240, 84, 242, 1, 166, 245, 246, 247, 138, 24, 250, 63, 252, 253, 254, 255], 249) [192, 193, 194, 195, 196, 197, 198, 199, 200, 201, 202, 203, 204, 205, 206, 207, 208, 209, 210, 211, 212, 213, 214, 215, 216, 217, 218, 219, 220, 221, 222, 223]
      = ([75, 156, 132, 157, 192, 200, 29, 168, 74, 243, 131, 94, 61, 112, 130, 144, 91, 143, 236, 10, 167, 185, 204, 92, 191, 216, 186, 14, 110, 77, 8, 35, 188, 27, 103, 137, 182, 64, 59, 105, 215, 99, 238, 126, 249, 26, 227, 55, 21, 68, 104, 78, 135, 113, 147, 172, 170, 89, 187, 28, 62, 32, 45, 65, 36, 251, 152, 116, 189, 7, 108, 46, 202, 162, 159, 83, 31, 154, 11, 231, 106, 13, 0, 217, 20, 218, 102, 118, 82, 85, 176, 97, 214, 151, 6, 4, 142, 120, 134, 60, 145, 165, 3, 39, 86, 129, 90, 127, 197, 72, 117, 146, 47, 195, 52, 128, 100, 211, 174, 209, 248, 239, 114, 219, 244, 234, 163, 190, 183, 48, 54, 98, 153, 121, 123, 38, 40, 180, 179, 232, 203, 70, 5, 221, 43, 199, 224, 213, 210, 220, 173, 241, 23, 88, 196, 208, 177, 58, 9, 73, 141, 160, 193, 181, 19, 233, 124, 80, 30, 81, 111, 149, 175, 150, 207, 222, 17, 119, 230, 96, 71, 87, 133, 198, 95, 169, 155, 212, 66, 49, 205, 2, 76, 115, 37, 194, 57, 22, 223, 178, 16, 12, 93, 237, 240, 107, 206, 69, 53, 158, 148, 15, 122, 136, 161, 246, 201, 44, 171, 67, 164, 109, 252, 50, 56, 225, 226, 184, 228, 229, 51, 79, 139, 101, 125, 235, 18, 140, 42, 41, 25, 84, 242, 1, 166, 245, 33, 247, 138, 24, 250, 63, 34, 253, 254, 255], 135) := by decide
  have h8 : List.foldl (ksaStep [75, 101, 121]) ([75, 156, 132, 157, 192, 200, 29, 168, 74, 243, 131, 94, 61, 112, 130, 144, 91, 143, 236, 10, 167, 185, 204, 92, 191, 216, 186, 14, 110, 77, 8, 35, 188, 27, 103, 137, 182, 64, 59, 105, 215, 99, 238, 126, 249, 26, 227, 55, 21, 68, 104, 78, 135, 113, 147, 172, 170, 89, 187, 28, 62, 32, 45, 65, 36, 251, 152, 116, 189, 7, 108, 46, 202, 162, 159, 83, 31, 154, 11, 231, 106, 13, 0, 217, 20, 218, 102, 118, 82, 85, 176, 97, 214, 151, 6, 4, 142, 120, 134, 60, 145, 165, 3, 39, 86, 129, 90, 127, 197, 72, 117, 146, 47, 195, 52, 128, 100, 211, 174, 209, 248, 239, 114, 219, 244, 234, 163, 190, 183, 48, 54, 98, 153, 121, 123, 38, 40, 180, 179, 232, 203, 70, 5, 221, 43, 199, 224, 213, 210, 220, 173, 241, 23, 88, 196, 208, 177, 58, 9, 73, 141, 160, 193, 181, 19, 233, 124, 80, 30, 81, 111, 149, 175, 150, 207, 222, 17, 119, 230, 96, 71, 87, 133, 198, 95, 169, 155, 212, 66, 49, 205, 2, 76, 115, 37, 194, 57, 22, 223, 178, 16, 12, 93, 237, 240, 107, 206, 69, 53, 158, 148, 15, 122, 136, 161, 246, 201, 44, 171, 67, 164, 109, 252, 50, 56, 225, 226, 184, 228, 229, 51, 79, 139, 101, 125, 235, 18, 140, 42, 41, 25, 84, 242, 1, 166, 245, 33, 247, 138, 24, 250, 63, 34, 253, 254, 255], 135) [224, 225, 226, 227, 228, 229, 230, 231, 232, 233, 234, 235, 236, 237, 238, 239, 240, 241, 242, 243, 244, 245, 246, 247, 248, 249, 250, 251, 252, 253, 254, 255]
      = ([75, 51, 132, 157, 192, 200, 29, 168, 74, 243, 131, 228, 18, 112, 130, 144, 91, 143, 236, 34, 41, 185, 204, 92, 191, 216, 186, 14, 110, 77, 8, 35, 188, 27, 103, 137, 182, 64, 59, 105, 215, 247, 238, 126, 138, 26, 227, 55, 21, 84, 104, 78, 135, 113, 255, 172, 56, 89, 187, 28, 62, 32, 45, 65, 36, 251, 152, 116, 189, 7, 108, 46, 202, 162, 159, 83, 31, 154, 11, 231, 106, 13, 0, 217, 20, 229, 102, 118, 82, 85, 176, 97, 214, 151, 6, 4, 142, 245, 134, 60, 225, 165, 3, 39, 86, 101, 90, 127, 197, 72, 117, 146, 47, 195, 42, 128, 100, 253, 174, 209, 25, 239, 114, 219, 244, 234, 163, 190, 183, 235, 54, 98, 153, 121, 123, 38, 40, 180, 179, 139, 203, 70, 5, 24, 43, 199, 224, 213, 210, 220, 173, 241, 23, 88, 196, 79, 242, 58, 9, 73, 141, 160, 193, 181, 19, 233, 63, 80, 30, 81, 111, 226, 175, 150, 207, 222, 17, 119, 230, 96, 71, 87, 133, 198, 95, 169, 155, 212, 66, 49, 205, 2, 76, 115, 37, 194, 57, 22, 223, 178, 16, 12, 93, 237, 240, 33, 206, 69, 53, 158, 148, 15, 122, 136, 161, 246, 201, 44, 171, 67, 184, 109, 252, 50, 170, 145, 149, 140, 94, 218, 156, 208, 1, 129, 68, 48, 254, 164, 250, 167, 248, 125, 177, 166, 232, 120, 107, 99, 249, 221, 52, 124, 10, 211, 61, 147], 54) := by decide
  unfold ksa
  rw [range256_chunks]
  simp only [List.foldl_append]
  rw [h1, h2, h3, h4, h5, h6, h7, h8]

set_option maxRecDepth 100000 in
set_option maxHeartbeats 2000000 in
/-- First 10 keystream bytes from the scheduled "Key" state. -/
theorem readKey_eq : ((RC4RawStream.mk 0 0 [75, 51, 132, 157, 192, 200, 29, 168, 74, 243, 131, 228, 18, 112, 130, 144, 91, 143, 236, 34, 41, 185, 204, 92, 191, 216, 186, 14, 110, 77, 8, 35, 188, 27, 103, 137, 182, 64, 59, 105, 215, 247, 238, 126, 138, 26, 227, 55, 21, 84, 104, 78, 135, 113, 255, 172, 56, 89, 187, 28, 62, 32, 45, 65, 36, 251, 152, 116, 189, 7, 108, 46, 202, 162, 159, 83, 31, 154, 11, 231, 106, 13, 0, 217, 20, 229, 102, 118, 82, 85, 176, 97, 214, 151, 6, 4, 142, 245, 134, 60, 225, 165, 3, 39, 86, 101, 90, 127, 197, 72, 117, 146, 47, 195, 42, 128, 100, 253, 174, 209, 25, 239, 114, 219, 244, 234, 163, 190, 183, 235, 54, 98, 153, 121, 123, 38, 40, 180, 179, 139, 203, 70, 5, 24, 43, 199, 224, 213, 210, 220, 173, 241, 23, 88, 196, 79, 242, 58, 9, 73, 141, 160, 193, 181, 19, 233, 63, 80, 30, 81, 111, 226, 175, 150, 207, 222, 17, 119, 230, 96, 71, 87, 133, 198, 95, 169, 155, 212, 66, 49, 205, 2, 76, 115, 37, 194, 57, 22, 223, 178, 16, 12, 93, 237, 240, 33, 206, 69, 53, 158, 148, 15, 122, 136, 161, 246, 201, 44, 171, 67, 184, 109, 252, 50, 170, 145, 149, 140, 94, 218, 156, 208, 1, 129, 68, 48, 254, 164, 250, 167, 248, 125, 177, 166, 232, 120, 107, 99, 249, 221, 52, 124, 10, 211, 61, 147]).read 10).2
    = [235, 159, 119, 129, 183, 52, 202, 114, 167, 25] := by decide

set_option maxRecDepth 100000 in
set_option maxHeartbeats 2000000 in
/-- Value of the key schedule on the "Wiki" test key, computed in blocks. -/
theorem ksaWiki_eq : ksa [87, 105, 107, 105] = ([139, 160, 46, 154, 32, 177, 91, 188, 187, 21, 40, 161, 73, 240, 49, 200, 174, 170, 53, 162, 234, 120, 201, 216, 140, 153, 246, 221, 237, 144, 252, 132, 78, 133, 178, 226, 18, 167, 113, 180, 175, 197, 90, 238, 194, 189, 202, 28, 67, 80, 171, 60, 81, 50, 130, 1, 101, 13, 124, 251, 159, 23, 43, 3, 0, 57, 42, 2, 71, 63, 119, 149, 94, 230, 93, 7, 242, 168, 12, 127, 27, 72, 211, 228, 136, 87, 190, 68, 156, 83, 31, 54, 231, 29, 218, 110, 52, 96, 79, 164, 222, 34, 118, 77, 8, 142, 36, 16, 176, 186, 47, 166, 39, 147, 227, 236, 37, 4, 104, 229, 75, 35, 11, 250, 70, 203, 191, 155, 184, 19, 143, 88, 59, 112, 214, 44, 165, 151, 97, 22, 137, 217, 181, 212, 115, 128, 215, 17, 148, 89, 62, 224, 135, 209, 103, 213, 58, 84, 247, 138, 193, 254, 219, 114, 92, 123, 206, 195, 179, 30, 169, 5, 223, 129, 95, 6, 157, 99, 38, 74, 14, 98, 51, 152, 69, 172, 208, 244, 45, 64, 65, 233, 105, 255, 25, 249, 146, 109, 24, 15, 82, 100, 116, 196, 111, 117, 41, 207, 86, 141, 85, 243, 182, 220, 225, 232, 145, 106, 61, 121, 107, 122, 48, 56, 102, 26, 158, 239, 248, 235, 10, 185, 205, 108, 125, 66, 9, 253, 199, 183, 20, 126, 150, 55, 163, 33, 241, 192, 173, 210, 131, 245, 198, 76, 134, 204], 55) := by
  have h1 : List.foldl (ksaStep [87, 105, 107, 105]) (rc4InitState, 0) [0, 1, 2, 3, 4, 5, 6, 7, 8, 9, 10, 11, 12, 13, 14, 15, 16, 17, 18, 19, 20, 21, 22, 23, 24, 25, 26, 27, 28, 29, 30, 31]
      = ([22, 193, 46, 154, 245, 99, 212, 68, 163, 21, 138, 254, 97, 20, 80, 200, 47, 169, 38, 162, 215, 127, 87, 128, 239, 113, 246, 122, 237, 115, 252, 132, 32, 33, 34, 35, 36, 37, 18, 39, 40, 41, 42, 43, 44, 45, 2, 16, 48, 49, 50, 51, 52, 53, 54, 55, 56, 57, 58, 59, 60, 61, 62, 63, 64, 65, 66, 67, 7, 69, 70, 71, 72, 73, 74, 75, 76, 77, 78, 79, 14, 81, 82, 83, 84, 85, 86, 0, 88, 89, 90, 91, 92, 93, 94, 95, 96, 12, 98, 5, 100, 101, 102, 103, 104, 105, 106, 107, 108, 109, 110, 111, 112, 25, 114, 29, 116, 117, 118, 119, 120, 121, 27, 123, 124, 125, 126, 9, 23, 129, 130, 131, 31, 133, 134, 135, 136, 137, 10, 139, 140, 141, 142, 143, 144, 145, 146, 147, 148, 149, 150, 151, 152, 153, 3, 155, 156, 157, 158, 159, 160, 161, 19, 8, 164, 165, 166, 167, 168, 17, 170, 171, 172, 173, 174, 175, 176, 177, 178, 179, 180, 181, 182, 183, 184, 185, 186, 187, 188, 189, 190, 191, 192, 1, 194, 195, 196, 197, 198, 199, 15, 201, 202, 203, 204, 205, 206, 207, 208, 209, 210, 211, 6, 213, 214, 13, 216, 217, 218, 219, 220, 221, 222, 223, 224, 225, 226, 227, 228, 229, 230, 231, 232, 233, 234, 235, 236, 28, 238, 24, 240, 241, 242, 243, 244, 4, 26, 247, 248, 249, 250, 251, 30, 253, 11, 255], 132) := by decide
  have h2 : List.foldl (ksaStep [87, 105, 107, 105]) ([22, 193, 46, 154, 245, 99, 212, 68, 163, 21, 138, 254, 97, 20, 80, 200, 47, 169, 38, 162, 215, 127, 87, 128, 239, 113, 246, 122, 237, 115, 252, 132, 32, 33, 34, 35, 36, 37, 18, 39, 40, 41, 42, 43, 44, 45, 2, 16, 48, 49, 50, 51, 52, 53, 54, 55, 56, 57, 58, 59, 60, 61, 62, 63, 64, 65, 66, 67, 7, 69, 70, 71, 72, 73, 74, 75, 76, 77, 78, 79, 14, 81, 82, 83, 84, 85, 86, 0, 88, 89, 90, 91, 92, 93, 94, 95, 96, 12, 98, 5, 100, 101, 102, 103, 104, 105, 106, 107, 108, 109, 110, 111, 112, 25, 114, 29, 116, 117, 118, 119, 120, 121, 27, 123, 124, 125, 126, 9, 23, 129, 130, 131, 31, 133, 134, 135, 136, 137, 10, 139, 140, 141, 142, 143, 144, 145, 146, 147, 148, 149, 150, 151, 152, 153, 3, 155, 156, 157, 158, 159, 160, 161, 19, 8, 164, 165, 166, 167, 168, 17, 170, 171, 172, 173, 174, 175, 176, 177, 178, 179, 180, 181, 182, 183, 184, 185, 186, 187, 188, 189, 190, 191, 192, 1, 194, 195, 196, 197, 198, 199, 15, 201, 202, 203, 204, 205, 206, 207, 208, 209, 210, 211, 6, 213, 214, 13, 216, 217, 218, 219, 220, 221, 222, 223, 224, 225, 226, 227, 228, 229, 230, 231, 232, 233, 234, 235, 236, 28, 238, 24, 240, 241, 242, 243, 244, 4, 26, 247, 248, 249, 250, 251, 30, 253, 11, 255], 132) [32, 33, 34, 35, 36, 37, 38, 39, 40, 41, 42, 43, 44, 45, 46, 47, 48, 49, 50, 51, 52, 53, 54, 55, 56, 57, 58, 59, 60, 61, 62, 63]
      = ([22, 193, 46, 154, 245, 99, 54, 45, 163, 21, 138, 254, 97, 20, 49, 200, 47, 169, 34, 162, 215, 127, 87, 128, 239, 36, 246, 122, 237, 115, 252, 132, 59, 133, 38, 158, 18, 167, 113, 180, 51, 197, 90, 238, 25, 68, 116, 28, 2, 80, 171, 60, 199, 56, 212, 166, 101, 13, 124, 251, 159, 69, 43, 150, 64, 65, 66, 67, 7, 61, 70, 71, 72, 73, 74, 75, 76, 77, 78, 79, 14, 81, 82, 83, 84, 85, 86, 0, 88, 89, 42, 91, 92, 93, 94, 95, 96, 12, 98, 5, 100, 53, 102, 103, 104, 105, 106, 107, 108, 109, 110, 111, 112, 44, 114, 29, 48, 117, 118, 119, 120, 121, 27, 123, 58, 125, 126, 9, 23, 129, 130, 131, 31, 33, 134, 135, 136, 137, 10, 139, 140, 141, 142, 143, 144, 145, 146, 147, 148, 149, 63, 151, 152, 153, 3, 155, 156, 157, 35, 40, 160, 161, 19, 8, 164, 165, 55, 37, 168, 17, 170, 50, 172, 173, 174, 175, 176, 177, 178, 179, 39, 181, 182, 183, 184, 185, 186, 187, 188, 189, 190, 191, 192, 1, 194, 195, 196, 41, 198, 52, 15, 201, 202, 203, 204, 205, 206, 207, 208, 209, 210, 211, 6, 213, 214, 57, 216, 217, 218, 219, 220, 221, 222, 223, 224, 225, 226, 227, 228, 229, 230, 231, 232, 233, 234, 235, 236, 16, 62, 24, 240, 241, 242, 243, 244, 4, 26, 247, 248, 249, 250, 32, 30, 253, 11, 255], 150) := by decide
  have h3 : List.foldl (ksaStep [87, 105, 107, 105]) ([22, 193, 46, 154, 245, 99, 54, 45, 163, 21, 138, 254, 97, 20, 49, 200, 47, 169, 34, 162, 215, 127, 87, 128, 239, 36, 246, 122, 237, 115, 252, 132, 59, 133, 38, 158, 18, 167, 113, 180, 51, 197, 90, 238, 25, 68, 116, 28, 2, 80, 171, 60, 199, 56, 212, 166, 101, 13, 124, 251, 159, 69, 43, 150, 64, 65, 66, 67, 7, 61, 70, 71, 72, 73, 74, 75, 76, 77, 78, 79, 14, 81, 82, 83, 84, 85, 86, 0, 88, 89, 42, 91, 92, 93, 94, 95, 96, 12, 98, 5, 100, 53, 102, 103, 104, 105, 106, 107, 108, 109, 110, 111, 112, 44, 114, 29, 48, 117, 118, 119, 120, 121, 27, 123, 58, 125, 126, 9, 23, 129, 130, 131, 31, 33, 134, 135, 136, 137, 10, 139, 140, 141, 142, 143, 144, 145, 146, 147, 148, 149, 63, 151, 152, 153, 3, 155, 156, 157, 35, 40, 160, 161, 19, 8, 164, 165, 55, 37, 168, 17, 170, 50, 172, 173, 174, 175, 176, 177, 178, 179, 39, 181, 182, 183, 184, 185, 186, 187, 188, 189, 190, 191, 192, 1, 194, 195, 196, 41, 198, 52, 15, 201, 202, 203, 204, 205, 206, 207, 208, 209, 210, 211, 6, 213, 214, 57, 216, 217, 218, 219, 220, 221, 222, 223, 224, 225, 226, 227, 228, 229, 230, 231, 232, 233, 234, 235, 236, 16, 62, 24, 240, 241, 242, 243, 244, 4, 26, 247, 248, 249, 250, 32, 30, 253, 11, 255], 150) [64, 65, 66, 67, 68, 69, 70, 71, 72, 73, 74, 75, 76, 77, 78, 79, 80, 81, 82, 83, 84, 85, 86, 87, 88, 89, 90, 91, 92, 93, 94, 95]
      = ([22, 193, 46, 154, 245, 99, 91, 45, 163, 21, 138, 254, 97, 20, 49, 200, 95, 169, 34, 162, 215, 75, 85, 128, 239, 36, 246, 122, 237, 115, 252, 132, 59, 133, 38, 158, 18, 167, 113, 180, 51, 197, 90, 238, 25, 64, 116, 28, 67, 80, 171, 60, 81, 56, 212, 166, 101, 13, 124, 251, 159, 69, 43, 150, 0, 57, 42, 2, 142, 199, 229, 149, 94, 230, 155, 79, 242, 168, 12, 127, 27, 72, 241, 173, 88, 87, 65, 68, 235, 83, 31, 54, 185, 9, 61, 47, 96, 78, 98, 5, 100, 53, 102, 103, 104, 105, 106, 107, 108, 109, 110, 111, 112, 44, 114, 29, 48, 117, 118, 119, 120, 121, 14, 123, 58, 125, 126, 93, 23, 129, 130, 131, 66, 33, 134, 135, 136, 137, 10, 139, 140, 141, 7, 143, 144, 145, 146, 147, 148, 71, 63, 151, 152, 153, 3, 74, 156, 157, 35, 40, 160, 161, 19, 8, 164, 165, 55, 37, 77, 17, 170, 50, 172, 89, 174, 175, 176, 177, 178, 179, 39, 181, 182, 183, 184, 92, 186, 187, 188, 189, 190, 191, 192, 1, 194, 195, 196, 41, 198, 52, 15, 201, 202, 203, 204, 205, 206, 207, 208, 209, 210, 211, 6, 213, 214, 86, 216, 217, 218, 219, 220, 221, 222, 223, 224, 225, 226, 227, 228, 70, 73, 231, 232, 233, 234, 84, 236, 16, 62, 24, 240, 82, 76, 243, 244, 4, 26, 247, 248, 249, 250, 32, 30, 253, 11, 255], 16) := by decide
  have h4 : List.foldl (ksaStep [87, 105, 107, 105]) ([22, 193, 46, 154, 245, 99, 91, 45, 163, 21, 138, 254, 97, 20, 49, 200, 95, 169, 34, 162, 215, 75, 85, 128, 239, 36, 246, 122, 237, 115, 252, 132, 59, 133, 38, 158, 18, 167, 113, 180, 51, 197, 90, 238, 25, 64, 116, 28, 67, 80, 171, 60, 81, 56, 212, 166, 101, 13, 124, 251, 159, 69, 43, 150, 0, 57, 42, 2, 142, 199, 229, 149, 94, 230, 155, 79, 242, 168, 12, 127, 27, 72, 241, 173, 88, 87, 65, 68, 235, 83, 31, 54, 185, 9, 61, 47, 96, 78, 98, 5, 100, 53, 102, 103, 104, 105, 106, 107, 108, 109, 110, 111, 112, 44, 114, 29, 48, 117, 118, 119, 120, 121, 14, 123, 58, 125, 126, 93, 23, 129, 130, 131, 66, 33, 134, 135, 136, 137, 10, 139, 140, 141, 7, 143, 144, 145, 146, 147, 148, 71, 63, 151, 152, 153, 3, 74, 156, 157, 35, 40, 160, 161, 19, 8, 164, 165, 55, 37, 77, 17, 170, 50, 172, 89, 174, 175, 176, 177, 178, 179, 39, 181, 182, 183, 184, 92, 186, 187, 188, 189, 190, 191, 192, 1, 194, 195, 196, 41, 198, 52, 15, 201, 202, 203, 204, 205, 206, 207, 208, 209, 210, 211, 6, 213, 214, 86, 216, 217, 218, 219, 220, 221, 222, 223, 224, 225, 226, 227, 228, 70, 73, 231, 232, 233, 234, 84, 236, 16, 62, 24, 240, 82, 76, 243, 244, 4, 26, 247, 248, 249, 250, 32, 30, 253, 11, 255], 16) [96, 97, 98, 99, 100, 101, 102, 103, 104, 105, 106, 107, 108, 109, 110, 111, 112, 113, 114, 115, 116, 117, 118, 119, 120, 121, 122, 123, 124, 125, 126, 127]
      = ([22, 193, 46, 154, 245, 99, 91, 45, 163, 21, 138, 254, 97, 20, 49, 200, 95, 169, 53, 162, 215, 120, 85, 128, 239, 106, 246, 122, 237, 115, 252, 132, 59, 133, 38, 158, 18, 167, 113, 180, 51, 197, 90, 238, 25, 64, 116, 28, 67, 80, 171, 60, 81, 56, 212, 111, 101, 13, 124, 251, 159, 69, 43, 150, 0, 57, 42, 2, 105, 199, 119, 149, 94, 230, 93, 98, 242, 168, 12, 127, 27, 72, 241, 173, 123, 87, 65, 68, 235, 83, 31, 54, 185, 9, 61, 110, 52, 126, 79, 92, 48, 34, 118, 179, 114, 142, 36, 16, 176, 134, 47, 166, 14, 147, 227, 236, 37, 33, 104, 229, 75, 247, 11, 88, 70, 203, 66, 155, 23, 129, 130, 131, 78, 117, 109, 135, 136, 137, 10, 139, 140, 141, 7, 143, 144, 145, 146, 44, 148, 71, 63, 151, 152, 153, 3, 74, 156, 157, 35, 40, 160, 161, 19, 8, 164, 165, 55, 100, 77, 17, 170, 50, 172, 89, 174, 175, 108, 177, 178, 103, 39, 181, 182, 183, 184, 5, 186, 187, 188, 189, 190, 191, 192, 1, 194, 195, 196, 41, 198, 96, 15, 201, 202, 125, 204, 205, 206, 207, 208, 209, 210, 211, 6, 213, 214, 86, 216, 217, 218, 219, 220, 221, 222, 223, 224, 225, 226, 102, 228, 58, 73, 231, 232, 233, 234, 84, 29, 107, 62, 24, 240, 82, 76, 243, 244, 4, 26, 121, 248, 249, 250, 32, 30, 253, 112, 255], 74) := by decide
  have h5 : List.foldl (ksaStep [87, 105, 107, 105]) ([22, 193, 46, 154, 245, 99, 91, 45, 163, 21, 138, 254, 97, 20, 49, 200, 95, 169, 53, 162, 215, 120, 85, 128, 239, 106, 246, 122, 237, 115, 252, 132, 59, 133, 38, 158, 18, 167, 113, 180, 51, 197, 90, 238, 25, 64, 116, 28, 67, 80, 171, 60, 81, 56, 212, 111, 101, 13, 124, 251, 159, 69, 43, 150, 0, 57, 42, 2, 105, 199, 119, 149, 94, 230, 93, 98, 242, 168, 12, 127, 27, 72, 241, 173, 123, 87, 65, 68, 235, 83, 31, 54, 185, 9, 61, 110, 52, 126, 79, 92, 48, 34, 118, 179, 114, 142, 36, 16, 176, 134, 47, 166, 14, 147, 227, 236, 37, 33, 104, 229, 75, 247, 11, 88, 70, 203, 66, 155, 23, 129, 130, 131, 78, 117, 109, 135, 136, 137, 10, 139, 140, 141, 7, 143, 144, 145, 146, 44, 148, 71, 63, 151, 152, 153, 3, 74, 156, 157, 35, 40, 160, 161, 19, 8, 164, 165, 55, 100, 77, 17, 170, 50, 172, 89, 174, 175, 108, 177, 178, 103, 39, 181, 182, 183, 184, 5, 186, 187, 188, 189, 190, 191, 192, 1, 194, 195, 196, 41, 198, 96, 15, 201, 202, 125, 204, 205, 206, 207, 208, 209, 210, 211, 6, 213, 214, 86, 216, 217, 218, 219, 220, 221, 222, 223, 224, 225, 226, 102, 228, 58, 73, 231, 232, 233, 234, 84, 29, 107, 62, 24, 240, 82, 76, 243, 244, 4, 26, 121, 248, 249, 250, 32, 30, 253, 112, 255], 74) [128, 129, 130, 131, 132, 133, 134, 135, 136, 137, 138, 139, 140, 141, 142, 143, 144, 145, 146, 147, 148, 149, 150, 151, 152, 153, 154, 155, 156, 157, 158, 159]
      = ([139, 193, 46, 154, 245, 99, 91, 45, 163, 21, 40, 254, 10, 20, 49, 200, 95, 169, 53, 162, 146, 120, 85, 145, 239, 106, 246, 122, 237, 144, 252, 132, 78, 133, 38, 158, 18, 167, 113, 180, 51, 197, 90, 238, 25, 64, 116, 28, 67, 80, 171, 60, 81, 56, 130, 111, 101, 13, 124, 251, 159, 69, 43, 3, 0, 57, 42, 2, 71, 199, 119, 149, 94, 230, 93, 7, 242, 168, 12, 127, 27, 72, 241, 173, 123, 87, 65, 68, 235, 83, 31, 54, 185, 9, 61, 110, 52, 126, 79, 92, 48, 34, 118, 179, 114, 142, 36, 16, 176, 134, 47, 166, 14, 147, 227, 236, 37, 33, 104, 229, 75, 35, 11, 131, 70, 203, 66, 155, 184, 19, 143, 88, 59, 112, 214, 198, 165, 151, 97, 22, 102, 217, 98, 212, 115, 128, 215, 17, 148, 105, 62, 224, 207, 209, 150, 76, 58, 84, 247, 138, 160, 161, 129, 8, 164, 136, 55, 100, 77, 44, 170, 50, 172, 89, 174, 175, 108, 177, 178, 103, 39, 181, 182, 183, 23, 5, 186, 187, 188, 189, 190, 191, 192, 1, 194, 195, 196, 41, 135, 96, 15, 201, 202, 125, 204, 205, 206, 152, 208, 153, 210, 211, 6, 213, 109, 86, 216, 141, 218, 219, 220, 221, 222, 223, 137, 225, 226, 140, 228, 156, 73, 231, 232, 233, 234, 157, 29, 107, 63, 24, 240, 82, 74, 243, 244, 4, 26, 121, 248, 249, 250, 32, 30, 253, 117, 255], 10) := by decide
  have h6 : List.foldl (ksaStep [87, 105, 107, 105]) ([139, 193, 46, 154, 245, 99, 91, 45, 163, 21, 40, 254, 10, 20, 49, 200, 95, 169, 53, 162, 146, 120, 85, 145, 239, 106, 246, 122, 237, 144, 252, 132, 78, 133, 38, 158, 18, 167, 113, 180, 51, 197, 90, 238, 25, 64, 116, 28, 67, 80, 171, 60, 81, 56, 130, 111, 101, 13, 124, 251, 159, 69, 43, 3, 0, 57, 42, 2, 71, 199, 119, 149, 94, 230, 93, 7, 242, 168, 12, 127, 27, 72, 241, 173, 123, 87, 65, 68, 235, 83, 31, 54, 185, 9, 61, 110, 52, 126, 79, 92, 48, 34, 118, 179, 114, 142, 36, 16, 176, 134, 47, 166, 14, 147, 227, 236, 37, 33, 104, 229, 75, 35, 11, 131, 70, 203, 66, 155, 184, 19, 143, 88, 59, 112, 214, 198, 165, 151, 97, 22, 102, 217, 98, 212, 115, 128, 215, 17, 148, 105, 62, 224, 207, 209, 150, 76, 58, 84, 247, 138, 160, 161, 129, 8, 164, 136, 55, 100, 77, 44, 170, 50, 172, 89, 174, 175, 108, 177, 178, 103, 39, 181, 182, 183, 23, 5, 186, 187, 188, 189, 190, 191, 192, 1, 194, 195, 196, 41, 135, 96, 15, 201, 202, 125, 204, 205, 206, 152, 208, 153, 210, 211, 6, 213, 109, 86, 216, 141, 218, 219, 220, 221, 222, 223, 137, 225, 226, 140, 228, 156, 73, 231, 232, 233, 234, 157, 29, 107, 63, 24, 240, 82, 74, 243, 244, 4, 26, 121, 248, 249, 250, 32, 30, 253, 117, 255], 10) [160, 161, 162, 163, 164, 165, 166, 167, 168, 169, 170, 171, 172, 173, 174, 175, 176, 177, 178, 179, 180, 181, 182, 183, 184, 185, 186, 187, 188, 189, 190, 191]
      = ([139, 160, 46, 154, 245, 177, 91, 188, 163, 21, 40, 161, 10, 20, 49, 200, 174, 170, 53, 162, 146, 120, 85, 145, 239, 106, 246, 122, 237, 144, 252, 132, 78, 133, 178, 158, 18, 167, 113, 180, 175, 197, 90, 238, 25, 189, 116, 28, 67, 80, 171, 60, 81, 50, 130, 111, 101, 13, 124, 251, 159, 23, 43, 3, 0, 57, 42, 2, 71, 199, 119, 149, 94, 230, 93, 7, 242, 168, 12, 127, 27, 72, 241, 173, 136, 87, 190, 68, 235, 83, 31, 54, 185, 9, 61, 110, 52, 126, 79, 164, 48, 34, 118, 77, 8, 142, 36, 16, 176, 134, 47, 166, 39, 147, 227, 236, 37, 33, 104, 229, 75, 35, 11, 131, 70, 203, 191, 155, 184, 19, 143, 88, 59, 112, 214, 198, 165, 151, 97, 22, 102, 217, 181, 212, 115, 128, 215, 17, 148, 105, 62, 224, 207, 209, 150, 76, 58, 84, 247, 138, 193, 254, 121, 114, 92, 123, 26, 195, 179, 30, 169, 5, 56, 129, 95, 182, 157, 99, 38, 74, 14, 98, 51, 152, 69, 172, 208, 244, 45, 64, 65, 66, 192, 1, 194, 100, 196, 41, 135, 96, 15, 201, 202, 125, 204, 205, 206, 183, 186, 153, 210, 211, 6, 213, 109, 86, 216, 141, 218, 219, 220, 221, 222, 223, 137, 225, 226, 140, 228, 156, 73, 231, 232, 233, 234, 108, 29, 107, 63, 24, 240, 82, 103, 243, 187, 4, 55, 89, 248, 249, 250, 32, 44, 253, 117, 255], 126) := by decide
  have h7 : List.foldl (ksaStep [87, 105, 107, 105]) ([139, 160, 46, 154, 245, 177, 91, 188, 163, 21, 40, 161, 10, 20, 49, 200, 174, 170, 53, 162, 146, 120, 85, 145, 239, 106, 246, 122, 237, 144, 252, 132, 78, 133, 178, 158, 18, 167, 113, 180, 175, 197, 90, 238, 25, 189, 116, 28, 67, 80, 171, 60, 81, 50, 130, 111, 101, 13, 124, 251, 159, 23, 43, 3, 0, 57, 42, 2, 71, 199, 119, 149, 94, 230, 93, 7, 242, 168, 12, 127, 27, 72, 241, 173, 136, 87, 190, 68, 235, 83, 31, 54, 185, 9, 61, 110, 52, 126, 79, 164, 48, 34, 118, 77, 8, 142, 36, 16, 176, 134, 47, 166, 39, 147, 227, 236, 37, 33, 104, 229, 75, 35, 11, 131, 70, 203, 191, 155, 184, 19, 143, 88, 59, 112, 214, 198, 165, 151, 97, 22, 102, 217, 181, 212, 115, 128, 215, 17, 148, 105, 62, 224, 207, 209, 150, 76, 58, 84, 247, 138, 193, 254, 121, 114, 92, 123, 26, 195, 179, 30, 169, 5, 56, 129, 95, 182, 157, 99, 38, 74, 14, 98, 51, 152, 69, 172, 208, 244, 45, 64, 65, 66, 192, 1, 194, 100, 196, 41, 135, 96, 15, 201, 202, 125, 204, 205, 206, 183, 186, 153, 210, 211, 6, 213, 109, 86, 216, 141, 218, 219, 220, 221, 222, 223, 137, 225, 226, 140, 228, 156, 73, 231, 232, 233, 234, 108, 29, 107, 63, 24, 240, 82, 103, 243, 187, 4, 55, 89, 248, 249, 250, 32, 44, 253, 117, 255], 126) [192, 193, 194, 195, 196, 197, 198, 199, 200, 201, 202, 203, 204, 205, 206, 207, 208, 209, 210, 211, 212, 213, 214, 215, 216, 217, 218, 219, 220, 221, 222, 223]
      = ([139, 160, 46, 154, 245, 177, 91, 188, 163, 21, 40, 161, 10, 20, 49, 200, 174, 170, 53, 162, 125, 120, 210, 216, 239, 153, 246, 221, 237, 144, 252, 132, 78, 133, 178, 158, 18, 167, 113, 180, 175, 197, 90, 238, 194, 189, 202, 28, 67, 80, 171, 60, 81, 50, 130, 204, 101, 13, 124, 251, 159, 23, 43, 3, 0, 57, 42, 2, 71, 199, 119, 149, 94, 230, 93, 7, 242, 168, 12, 127, 27, 72, 211, 173, 136, 87, 190, 68, 235, 83, 31, 54, 185, 9, 218, 110, 52, 96, 79, 164, 222, 34, 118, 77, 8, 142, 36, 16, 176, 205, 47, 166, 39, 147, 227, 236, 37, 33, 104, 229, 75, 35, 11, 131, 70, 203, 191, 155, 184, 19, 143, 88, 59, 112, 214, 198, 165, 151, 97, 22, 102, 217, 181, 212, 115, 128, 215, 17, 148, 192, 62, 224, 135, 209, 150, 76, 58, 84, 247, 138, 193, 254, 219, 114, 92, 123, 206, 195, 179, 30, 169, 5, 223, 129, 95, 6, 157, 99, 38, 74, 14, 98, 51, 152, 69, 172, 208, 244, 45, 64, 65, 66, 105, 255, 25, 249, 146, 109, 183, 15, 126, 100, 116, 196, 111, 134, 41, 207, 86, 141, 85, 241, 182, 220, 26, 232, 145, 106, 61, 121, 107, 122, 48, 56, 137, 225, 226, 140, 228, 156, 73, 231, 186, 233, 234, 108, 29, 213, 63, 24, 240, 82, 103, 243, 187, 4, 55, 89, 248, 201, 250, 32, 44, 253, 117, 1], 172) := by decide
  have h8 : List.foldl (ksaStep [87, 105, 107, 105]) ([139, 160, 46, 154, 245, 177, 91, 188, 163, 21, 40, 161, 10, 20, 49, 200, 174, 170, 53, 162, 125, 120, 210, 216, 239, 153, 246, 221, 237, 144, 252, 132, 78, 133, 178, 158, 18, 167, 113, 180, 175, 197, 90, 238, 194, 189, 202, 28, 67, 80, 171, 60, 81, 50, 130, 204, 101, 13, 124, 251, 159, 23, 43, 3, 0, 57, 42, 2, 71, 199, 119, 149, 94, 230, 93, 7, 242, 168, 12, 127, 27, 72, 211, 173, 136, 87, 190, 68, 235, 83, 31, 54, 185, 9, 218, 110, 52, 96, 79, 164, 222, 34, 118, 77, 8, 142, 36, 16, 176, 205, 47, 166, 39, 147, 227, 236, 37, 33, 104, 229, 75, 35, 11, 131, 70, 203, 191, 155, 184, 19, 143, 88, 59, 112, 214, 198, 165, 151, 97, 22, 102, 217, 181, 212, 115, 128, 215, 17, 148, 192, 62, 224, 135, 209, 150, 76, 58, 84, 247, 138, 193, 254, 219, 114, 92, 123, 206, 195, 179, 30, 169, 5, 223, 129, 95, 6, 157, 99, 38, 74, 14, 98, 51, 152, 69, 172, 208, 244, 45, 64, 65, 66, 105, 255, 25, 249, 146, 109, 183, 15, 126, 100, 116, 196, 111, 134, 41, 207, 86, 141, 85, 241, 182, 220, 26, 232, 145, 106, 61, 121, 107, 122, 48, 56, 137, 225, 226, 140, 228, 156, 73, 231, 186, 233, 234, 108, 29, 213, 63, 24, 240, 82, 103, 243, 187, 4, 55, 89, 248, 201, 250, 32, 44, 253, 117, 1], 172) [224, 225, 226, 227, 228, 229, 230, 231, 232, 233, 234, 235, 236, 237, 238, 239, 240, 241, 242, 243, 244, 245, 246, 247, 248, 249, 250, 251, 252, 253, 254, 255]
      = ([139, 160, 46, 154, 32, 177, 91, 188, 187, 21, 40, 161, 73, 240, 49, 200, 174, 170, 53, 162, 234, 120, 201, 216, 140, 153, 246, 221, 237, 144, 252, 132, 78, 133, 178, 226, 18, 167, 113, 180, 175, 197, 90, 238, 194, 189, 202, 28, 67, 80, 171, 60, 81, 50, 130, 1, 101, 13, 124, 251, 159, 23, 43, 3, 0, 57, 42, 2, 71, 63, 119, 149, 94, 230, 93, 7, 242, 168, 12, 127, 27, 72, 211, 228, 136, 87, 190, 68, 156, 83, 31, 54, 231, 29, 218, 110, 52, 96, 79, 164, 222, 34, 118, 77, 8, 142, 36, 16, 176, 186, 47, 166, 39, 147, 227, 236, 37, 4, 104, 229, 75, 35, 11, 250, 70, 203, 191, 155, 184, 19, 143, 88, 59, 112, 214, 44, 165, 151, 97, 22, 137, 217, 181, 212, 115, 128, 215, 17, 148, 89, 62, 224, 135, 209, 103, 213, 58, 84, 247, 138, 193, 254, 219, 114, 92, 123, 206, 195, 179, 30, 169, 5, 223, 129, 95, 6, 157, 99, 38, 74, 14, 98, 51, 152, 69, 172, 208, 244, 45, 64, 65, 233, 105, 255, 25, 249, 146, 109, 24, 15, 82, 100, 116, 196, 111, 117, 41, 207, 86, 141, 85, 243, 182, 220, 225, 232, 145, 106, 61, 121, 107, 122, 48, 56, 102, 26, 158, 239, 248, 235, 10, 185, 205, 108, 125, 66, 9, 253, 199, 183, 20, 126, 150, 55, 163, 33, 241, 192, 173, 210, 131, 245, 198, 76, 134, 204], 55) := by decide
  unfold ksa
  rw [range256_chunks]
  simp only [List.foldl_append]
  rw [h1, h2, h3, h4, h5, h6, h7, h8]

set_option maxRecDepth 100000 in
set_option maxHeartbeats 2000000 in
/-- First 6 keystream bytes from the scheduled "Wiki" state. -/
theorem readWiki_eq : ((RC4RawStream.mk 0 0 [139, 160, 46, 154, 32, 177, 91, 188, 187, 21, 40, 161, 73, 240, 49, 200, 174, 170, 53, 162, 234, 120, 201, 216, 140, 153, 246, 221, 237, 144, 252, 132, 78, 133, 178, 226, 18, 167, 113, 180, 175, 197, 90, 238, 194, 189, 202, 28, 67, 80, 171, 60, 81, 50, 130, 1, 101, 13, 124, 251, 159, 23, 43, 3, 0, 57, 42, 2, 71, 63, 119, 149, 94, 230, 93, 7, 242, 168, 12, 127, 27, 72, 211, 228, 136, 87, 190, 68, 156, 83, 31, 54, 231, 29, 218, 110, 52, 96, 79, 164, 222, 34, 118, 77, 8, 142, 36, 16, 176, 186, 47, 166, 39, 147, 227, 236, 37, 4, 104, 229, 75, 35, 11, 250, 70, 203, 191, 155, 184, 19, 143, 88, 59, 112, 214, 44, 165, 151, 97, 22, 137, 217, 181, 212, 115, 128, 215, 17, 148, 89, 62, 224, 135, 209, 103, 213, 58, 84, 247, 138, 193, 254, 219, 114, 92, 123, 206, 195, 179, 30, 169, 5, 223, 129, 95, 6, 157, 99, 38, 74, 14, 98, 51, 152, 69, 172, 208, 244, 45, 64, 65, 233, 105, 255, 25, 249, 146, 109, 24, 15, 82, 100, 116, 196, 111, 117, 41, 207, 86, 141, 85, 243, 182, 220, 225, 232, 145, 106, 61, 121, 107, 122, 48, 56, 102, 26, 158, 239, 248, 235, 10, 185, 205, 108, 125, 66, 9, 253, 199, 183, 20, 126, 150, 55, 163, 33, 241, 192, 173, 210, 131, 245, 198, 76, 134, 204]).read 6).2
    = [96, 68, 219, 109, 65, 183] := by decide

set_option maxRecDepth 100000 in
set_option maxHeartbeats 2000000 in
/-- Value of the key schedule on the "Secret" test key, computed in blocks. -/
theorem ksaSecret_eq : ksa [83, 101, 99, 114, 101, 116] = ([46, 181, 30, 147, 38, 63, 184, 113, 165, 32, 122, 14, 40, 91, 77, 195, 11, 178, 214, 8, 24, 193, 2, 197, 125, 34, 18, 156, 163, 42, 26, 3, 221, 25, 183, 79, 202, 177, 7, 124, 153, 250, 249, 129, 150, 246, 203, 80, 198, 59, 254, 136, 236, 228, 110, 96, 62, 47, 85, 138, 200, 152, 84, 117, 9, 95, 244, 49, 67, 199, 135, 6, 17, 118, 36, 224, 145, 204, 37, 13, 185, 196, 123, 239, 128, 219, 243, 188, 167, 12, 116, 213, 70, 109, 172, 234, 66, 253, 87, 151, 210, 74, 220, 240, 115, 245, 81, 51, 69, 48, 194, 107, 146, 43, 182, 131, 144, 148, 164, 166, 232, 56, 65, 1, 31, 28, 149, 44, 19, 58, 55, 230, 130, 72, 216, 82, 186, 211, 190, 174, 157, 27, 23, 76, 212, 189, 161, 237, 209, 160, 97, 251, 29, 78, 104, 191, 159, 86, 168, 162, 233, 64, 140, 68, 127, 170, 179, 226, 187, 10, 235, 134, 207, 83, 222, 242, 0, 41, 52, 75, 231, 57, 192, 126, 206, 90, 21, 45, 108, 158, 105, 248, 180, 94, 218, 5, 217, 227, 137, 98, 143, 154, 92, 173, 73, 99, 241, 53, 176, 22, 120, 114, 141, 215, 103, 61, 111, 139, 54, 15, 20, 106, 255, 101, 223, 100, 121, 50, 16, 33, 238, 201, 247, 112, 132, 102, 60, 175, 4, 39, 142, 252, 208, 89, 225, 229, 71, 133, 88, 119, 93, 171, 35, 205, 169, 155], 64) := by
  have h1 : List.foldl (ksaStep [83, 101, 99, 114, 101, 116]) (rc4InitState, 0) [0, 1, 2, 3, 4, 5, 6, 7, 8, 9, 10, 11, 12, 13, 14, 15, 16, 17, 18, 19, 20, 21, 22, 23, 24, 25, 26, 27, 28, 29, 30, 31]
      = ([83, 185, 30, 147, 252, 117, 206, 58, 165, 32, 143, 14, 109, 223, 77, 22, 67, 200, 45, 8, 24, 20, 2, 169, 28, 146, 6, 156, 163, 166, 26, 3, 9, 33, 34, 35, 36, 37, 38, 39, 40, 41, 42, 43, 44, 18, 46, 47, 48, 49, 50, 51, 52, 53, 54, 55, 56, 57, 7, 59, 60, 61, 62, 63, 64, 65, 66, 16, 68, 69, 70, 71, 72, 73, 74, 75, 76, 11, 78, 79, 80, 81, 82, 0, 84, 85, 86, 87, 88, 89, 90, 91, 92, 93, 94, 95, 96, 97, 98, 99, 100, 101, 102, 103, 104, 105, 106, 107, 108, 12, 110, 111, 112, 113, 114, 115, 116, 5, 118, 119, 120, 121, 122, 123, 124, 125, 126, 127, 128, 129, 130, 131, 132, 133, 134, 135, 136, 137, 138, 139, 140, 141, 142, 10, 144, 145, 25, 31, 148, 149, 150, 151, 152, 153, 154, 155, 27, 157, 158, 159, 160, 161, 162, 21, 164, 19, 29, 167, 168, 23, 170, 171, 172, 173, 174, 175, 176, 177, 178, 179, 180, 181, 182, 183, 184, 1, 186, 187, 188, 189, 190, 191, 192, 193, 194, 195, 196, 197, 198, 199, 17, 201, 202, 203, 204, 205, 15, 207, 208, 209, 210, 211, 212, 213, 214, 215, 216, 217, 218, 219, 220, 221, 222, 13, 224, 225, 226, 227, 228, 229, 230, 231, 232, 233, 234, 235, 236, 237, 238, 239, 240, 241, 242, 243, 244, 245, 246, 247, 248, 249, 250, 251, 4, 253, 254, 255], 147) := by decide
  have h2 : List.foldl (ksaStep [83, 101, 99, 114, 101, 116]) ([83, 185, 30, 147, 252, 117, 206, 58, 165, 32, 143, 14, 109, 223, 77, 22, 67, 200, 45, 8, 24, 20, 2, 169, 28, 146, 6, 156, 163, 166, 26, 3, 9, 33, 34, 35, 36, 37, 38, 39, 40, 41, 42, 43, 44, 18, 46, 47, 48, 49, 50, 51, 52, 53, 54, 55, 56, 57, 7, 59, 60, 61, 62, 63, 64, 65, 66, 16, 68, 69, 70, 71, 72, 73, 74, 75, 76, 11, 78, 79, 80, 81, 82, 0, 84, 85, 86, 87, 88, 89, 90, 91, 92, 93, 94, 95, 96, 97, 98, 99, 100, 101, 102, 103, 104, 105, 106, 107, 108, 12, 110, 111, 112, 113, 114, 115, 116, 5, 118, 119, 120, 121, 122, 123, 124, 125, 126, 127, 128, 129, 130, 131, 132, 133, 134, 135, 136, 137, 138, 139, 140, 141, 142, 10, 144, 145, 25, 31, 148, 149, 150, 151, 152, 153, 154, 155, 27, 157, 158, 159, 160, 161, 162, 21, 164, 19, 29, 167, 168, 23, 170, 171, 172, 173, 174, 175, 176, 177, 178, 179, 180, 181, 182, 183, 184, 1, 186, 187, 188, 189, 190, 191, 192, 193, 194, 195, 196, 197, 198, 199, 17, 201, 202, 203, 204, 205, 15, 207, 208, 209, 210, 211, 212, 213, 214, 215, 216, 217, 218, 219, 220, 221, 222, 13, 224, 225, 226, 227, 228, 229, 230, 231, 232, 233, 234, 235, 236, 237, 238, 239, 240, 241, 242, 243, 244, 245, 246, 247, 248, 249, 250, 251, 4, 253, 254, 255], 147) [32, 33, 34, 35, 36, 37, 38, 39, 40, 41, 42, 43, 44, 45, 46, 47, 48, 49, 50, 51, 52, 53, 54, 55, 56, 57, 58, 59, 60, 61, 62, 63]
      = ([83, 185, 30, 147, 252, 63, 206, 43, 165, 32, 55, 14, 109, 223, 77, 22, 67, 52, 45, 8, 24, 20, 2, 169, 28, 34, 18, 156, 163, 166, 26, 3, 255, 25, 146, 176, 39, 177, 7, 208, 93, 250, 119, 58, 150, 6, 173, 80, 211, 105, 254, 21, 60, 229, 110, 143, 19, 47, 219, 138, 200, 179, 84, 117, 64, 65, 66, 16, 68, 69, 70, 71, 72, 73, 74, 75, 76, 11, 78, 79, 57, 81, 82, 0, 62, 85, 86, 87, 88, 89, 90, 91, 92, 40, 94, 95, 96, 97, 98, 99, 100, 101, 102, 103, 104, 49, 106, 107, 108, 12, 54, 111, 112, 113, 114, 115, 116, 5, 118, 42, 120, 121, 122, 123, 124, 125, 126, 127, 128, 129, 130, 131, 132, 133, 134, 135, 136, 137, 59, 139, 140, 141, 142, 10, 144, 145, 33, 31, 148, 149, 44, 151, 152, 153, 154, 155, 27, 157, 158, 159, 160, 161, 162, 51, 164, 56, 29, 167, 168, 23, 170, 171, 172, 46, 174, 175, 35, 37, 178, 61, 180, 181, 182, 183, 184, 1, 186, 187, 188, 189, 190, 191, 192, 193, 194, 195, 196, 197, 198, 199, 17, 201, 202, 203, 204, 205, 15, 207, 36, 209, 210, 48, 212, 213, 214, 215, 216, 217, 218, 38, 220, 221, 222, 13, 224, 225, 226, 227, 228, 53, 230, 231, 232, 233, 234, 235, 236, 237, 238, 239, 240, 241, 242, 243, 244, 245, 246, 247, 248, 249, 41, 251, 4, 253, 50, 9], 5) := by decide
  have h3 : List.foldl (ksaStep [83, 101, 99, 114, 101, 116]) ([83, 185, 30, 147, 252, 63, 206, 43, 165, 32, 55, 14, 109, 223, 77, 22, 67, 52, 45, 8, 24, 20, 2, 169, 28, 34, 18, 156, 163, 166, 26, 3, 255, 25, 146, 176, 39, 177, 7, 208, 93, 250, 119, 58, 150, 6, 173, 80, 211, 105, 254, 21, 60, 229, 110, 143, 19, 47, 219, 138, 200, 179, 84, 117, 64, 65, 66, 16, 68, 69, 70, 71, 72, 73, 74, 75, 76, 11, 78, 79, 57, 81, 82, 0, 62, 85, 86, 87, 88, 89, 90, 91, 92, 40, 94, 95, 96, 97, 98, 99, 100, 101, 102, 103, 104, 49, 106, 107, 108, 12, 54, 111, 112, 113, 114, 115, 116, 5, 118, 42, 120, 121, 122, 123, 124, 125, 126, 127, 128, 129, 130, 131, 132, 133, 134, 135, 136, 137, 59, 139, 140, 141, 142, 10, 144, 145, 33, 31, 148, 149, 44, 151, 152, 153, 154, 155, 27, 157, 158, 159, 160, 161, 162, 51, 164, 56, 29, 167, 168, 23, 170, 171, 172, 46, 174, 175, 35, 37, 178, 61, 180, 181, 182, 183, 184, 1, 186, 187, 188, 189, 190, 191, 192, 193, 194, 195, 196, 197, 198, 199, 17, 201, 202, 203, 204, 205, 15, 207, 36, 209, 210, 48, 212, 213, 214, 215, 216, 217, 218, 38, 220, 221, 222, 13, 224, 225, 226, 227, 228, 53, 230, 231, 232, 233, 234, 235, 236, 237, 238, 239, 240, 241, 242, 243, 244, 245, 246, 247, 248, 249, 41, 251, 4, 253, 50, 9], 5) [64, 65, 66, 67, 68, 69, 70, 71, 72, 73, 74, 75, 76, 77, 78, 79, 80, 81, 82, 83, 84, 85, 86, 87, 88, 89, 90, 91, 92, 93, 94, 95]
      = ([83, 57, 30, 147, 252, 63, 206, 43, 165, 32, 55, 14, 40, 223, 77, 22, 11, 52, 45, 8, 24, 20, 2, 169, 28, 34, 18, 156, 163, 166, 26, 3, 255, 25, 146, 74, 39, 177, 7, 208, 93, 250, 119, 58, 150, 71, 173, 80, 211, 105, 254, 21, 60, 229, 110, 143, 19, 47, 85, 138, 200, 179, 84, 117, 170, 95, 244, 49, 67, 199, 89, 6, 17, 118, 176, 224, 145, 68, 37, 101, 185, 196, 123, 239, 128, 219, 243, 188, 121, 114, 86, 61, 70, 109, 207, 132, 96, 97, 98, 99, 100, 79, 102, 103, 104, 16, 106, 107, 108, 12, 54, 111, 112, 113, 92, 115, 116, 5, 73, 42, 120, 88, 122, 82, 124, 125, 126, 127, 62, 129, 130, 131, 65, 133, 134, 135, 136, 137, 59, 139, 140, 141, 142, 10, 144, 76, 33, 31, 148, 149, 44, 151, 152, 153, 154, 155, 27, 157, 158, 159, 160, 161, 162, 51, 164, 56, 29, 167, 168, 23, 64, 171, 172, 46, 174, 175, 35, 78, 178, 91, 180, 181, 182, 183, 184, 1, 186, 187, 87, 189, 190, 191, 192, 193, 194, 195, 81, 197, 198, 69, 72, 201, 202, 203, 204, 205, 15, 94, 36, 209, 210, 48, 212, 213, 214, 215, 216, 217, 218, 38, 220, 221, 222, 13, 75, 225, 226, 227, 228, 53, 230, 231, 232, 233, 234, 235, 236, 237, 238, 0, 240, 241, 242, 90, 66, 245, 246, 247, 248, 249, 41, 251, 4, 253, 50, 9], 132) := by decide
  have h4 : List.foldl (ksaStep [83, 101, 99, 114, 101, 116]) ([83, 57, 30, 147, 252, 63, 206, 43, 165, 32, 55, 14, 40, 223, 77, 22, 11, 52, 45, 8, 24, 20, 2, 169, 28, 34, 18, 156, 163, 166, 26, 3, 255, 25, 146, 74, 39, 177, 7, 208, 93, 250, 119, 58, 150, 71, 173, 80, 211, 105, 254, 21, 60, 229, 110, 143, 19, 47, 85, 138, 200, 179, 84, 117, 170, 95, 244, 49, 67, 199, 89, 6, 17, 118, 176, 224, 145, 68, 37, 101, 185, 196, 123, 239, 128, 219, 243, 188, 121, 114, 86, 61, 70, 109, 207, 132, 96, 97, 98, 99, 100, 79, 102, 103, 104, 16, 106, 107, 108, 12, 54, 111, 112, 113, 92, 115, 116, 5, 73, 42, 120, 88, 122, 82, 124, 125, 126, 127, 62, 129, 130, 131, 65, 133, 134, 135, 136, 137, 59, 139, 140, 141, 142, 10, 144, 76, 33, 31, 148, 149, 44, 151, 152, 153, 154, 155, 27, 157, 158, 159, 160, 161, 162, 51, 164, 56, 29, 167, 168, 23, 64, 171, 172, 46, 174, 175, 35, 78, 178, 91, 180, 181, 182, 183, 184, 1, 186, 187, 87, 189, 190, 191, 192, 193, 194, 195, 81, 197, 198, 69, 72, 201, 202, 203, 204, 205, 15, 94, 36, 209, 210, 48, 212, 213, 214, 215, 216, 217, 218, 38, 220, 221, 222, 13, 75, 225, 226, 227, 228, 53, 230, 231, 232, 233, 234, 235, 236, 237, 238, 0, 240, 241, 242, 90, 66, 245, 246, 247, 248, 249, 41, 251, 4, 253, 50, 9], 132) [96, 97, 98, 99, 100, 101, 102, 103, 104, 105, 106, 107, 108, 109, 110, 111, 112, 113, 114, 115, 116, 117, 118, 119, 120, 121, 122, 123, 124, 125, 126, 127]
      = ([83, 57, 30, 147, 252, 63, 206, 113, 165, 32, 55, 14, 40, 223, 77, 22, 11, 52, 45, 8, 24, 20, 2, 169, 125, 34, 18, 156, 163, 42, 26, 3, 255, 25, 112, 79, 39, 177, 7, 124, 93, 250, 119, 58, 150, 71, 173, 80, 211, 105, 254, 21, 60, 229, 110, 96, 19, 47, 85, 138, 200, 179, 84, 117, 170, 95, 244, 49, 67, 199, 82, 6, 17, 118, 176, 224, 145, 111, 37, 101, 185, 196, 123, 239, 128, 219, 243, 188, 121, 114, 116, 61, 70, 109, 207, 132, 100, 253, 108, 151, 143, 74, 220, 168, 115, 245, 81, 51, 54, 48, 194, 68, 146, 43, 182, 131, 86, 209, 127, 166, 232, 56, 130, 89, 208, 28, 233, 99, 62, 129, 122, 104, 65, 133, 134, 135, 136, 137, 59, 139, 140, 141, 142, 10, 144, 76, 33, 31, 148, 149, 44, 73, 152, 153, 154, 155, 27, 157, 158, 159, 160, 161, 162, 107, 164, 88, 29, 167, 103, 23, 64, 171, 172, 46, 174, 175, 35, 78, 178, 91, 180, 181, 92, 183, 184, 1, 186, 187, 87, 189, 190, 191, 192, 193, 98, 195, 106, 197, 198, 69, 72, 201, 202, 203, 204, 205, 15, 94, 36, 5, 210, 12, 212, 213, 214, 215, 216, 217, 218, 38, 102, 221, 222, 13, 75, 225, 226, 227, 228, 53, 230, 231, 120, 126, 234, 235, 236, 237, 238, 0, 240, 241, 242, 90, 66, 16, 246, 247, 248, 249, 41, 251, 4, 97, 50, 9], 151) := by decide
  have h5 : List.foldl (ksaStep [83, 101, 99, 114, 101, 116]) ([83, 57, 30, 147, 252, 63, 206, 113, 165, 32, 55, 14, 40, 223, 77, 22, 11, 52, 45, 8, 24, 20, 2, 169, 125, 34, 18, 156, 163, 42, 26, 3, 255, 25, 112, 79, 39, 177, 7, 124, 93, 250, 119, 58, 150, 71, 173, 80, 211, 105, 254, 21, 60, 229, 110, 96, 19, 47, 85, 138, 200, 179, 84, 117, 170, 95, 244, 49, 67, 199, 82, 6, 17, 118, 176, 224, 145, 111, 37, 101, 185, 196, 123, 239, 128, 219, 243, 188, 121, 114, 116, 61, 70, 109, 207, 132, 100, 253, 108, 151, 143, 74, 220, 168, 115, 245, 81, 51, 54, 48, 194, 68, 146, 43, 182, 131, 86, 209, 127, 166, 232, 56, 130, 89, 208, 28, 233, 99, 62, 129, 122, 104, 65, 133, 134, 135, 136, 137, 59, 139, 140, 141, 142, 10, 144, 76, 33, 31, 148, 149, 44, 73, 152, 153, 154, 155, 27, 157, 158, 159, 160, 161, 162, 107, 164, 88, 29, 167, 103, 23, 64, 171, 172, 46, 174, 175, 35, 78, 178, 91, 180, 181, 92, 183, 184, 1, 186, 187, 87, 189, 190, 191, 192, 193, 98, 195, 106, 197, 198, 69, 72, 201, 202, 203, 204, 205, 15, 94, 36, 5, 210, 12, 212, 213, 214, 215, 216, 217, 218, 38, 102, 221, 222, 13, 75, 225, 226, 227, 228, 53, 230, 231, 120, 126, 234, 235, 236, 237, 238, 0, 240, 241, 242, 90, 66, 16, 246, 247, 248, 249, 41, 251, 4, 97, 50, 9], 151) [128, 129, 130, 131, 132, 133, 134, 135, 136, 137, 138, 139, 140, 141, 142, 143, 144, 145, 146, 147, 148, 149, 150, 151, 152, 153, 154, 155, 156, 157, 158, 159]
      = ([83, 57, 30, 147, 252, 63, 206, 113, 165, 32, 122, 14, 40, 223, 77, 22, 11, 52, 45, 8, 24, 20, 2, 169, 125, 34, 18, 156, 163, 42, 26, 3, 255, 25, 112, 79, 39, 177, 7, 124, 93, 250, 119, 129, 150, 71, 173, 80, 137, 105, 254, 136, 60, 229, 110, 96, 62, 47, 85, 138, 200, 179, 84, 117, 170, 95, 244, 49, 67, 199, 135, 6, 17, 118, 176, 224, 145, 134, 37, 101, 185, 196, 123, 239, 128, 219, 243, 188, 121, 114, 116, 61, 70, 109, 207, 132, 100, 253, 108, 151, 133, 74, 220, 142, 115, 245, 81, 51, 54, 48, 194, 68, 146, 43, 182, 131, 144, 148, 127, 166, 232, 56, 65, 89, 31, 28, 149, 99, 19, 58, 55, 230, 130, 143, 111, 82, 21, 211, 190, 174, 157, 27, 10, 76, 141, 158, 235, 208, 209, 233, 97, 171, 29, 78, 35, 191, 159, 86, 168, 140, 160, 161, 162, 107, 164, 88, 152, 167, 103, 23, 64, 73, 172, 46, 139, 175, 154, 153, 178, 91, 180, 181, 92, 183, 184, 1, 186, 187, 87, 189, 59, 155, 192, 193, 98, 195, 106, 197, 198, 69, 72, 201, 202, 203, 204, 205, 15, 94, 36, 5, 210, 12, 212, 213, 214, 215, 216, 217, 218, 38, 102, 221, 222, 13, 75, 225, 226, 227, 228, 53, 104, 231, 120, 126, 234, 33, 236, 237, 238, 0, 240, 241, 242, 90, 66, 16, 246, 247, 248, 249, 41, 251, 4, 44, 50, 9], 144) := by decide
  have h6 : List.foldl (ksaStep [83, 101, 99, 114, 101, 116]) ([83, 57, 30, 147, 252, 63, 206, 113, 165, 32, 122, 14, 40, 223, 77, 22, 11, 52, 45, 8, 24, 20, 2, 169, 125, 34, 18, 156, 163, 42, 26, 3, 255, 25, 112, 79, 39, 177, 7, 124, 93, 250, 119, 129, 150, 71, 173, 80, 137, 105, 254, 136, 60, 229, 110, 96, 62, 47, 85, 138, 200, 179, 84, 117, 170, 95, 244, 49, 67, 199, 135, 6, 17, 118, 176, 224, 145, 134, 37, 101, 185, 196, 123, 239, 128, 219, 243, 188, 121, 114, 116, 61, 70, 109, 207, 132, 100, 253, 108, 151, 133, 74, 220, 142, 115, 245, 81, 51, 54, 48, 194, 68, 146, 43, 182, 131, 144, 148, 127, 166, 232, 56, 65, 89, 31, 28, 149, 99, 19, 58, 55, 230, 130, 143, 111, 82, 21, 211, 190, 174, 157, 27, 10, 76, 141, 158, 235, 208, 209, 233, 97, 171, 29, 78, 35, 191, 159, 86, 168, 140, 160, 161, 162, 107, 164, 88, 152, 167, 103, 23, 64, 73, 172, 46, 139, 175, 154, 153, 178, 91, 180, 181, 92, 183, 184, 1, 186, 187, 87, 189, 59, 155, 192, 193, 98, 195, 106, 197, 198, 69, 72, 201, 202, 203, 204, 205, 15, 94, 36, 5, 210, 12, 212, 213, 214, 215, 216, 217, 218, 38, 102, 221, 222, 13, 75, 225, 226, 227, 228, 53, 104, 231, 120, 126, 234, 33, 236, 237, 238, 0, 240, 241, 242, 90, 66, 16, 246, 247, 248, 249, 41, 251, 4, 44, 50, 9], 144) [160, 161, 162, 163, 164, 165, 166, 167, 168, 169, 170, 171, 172, 173, 174, 175, 176, 177, 178, 179, 180, 181, 182, 183, 184, 185, 186, 187, 188, 189, 190, 191]
      = ([46, 181, 30, 147, 252, 63, 184, 113, 165, 32, 122, 14, 40, 223, 77, 22, 11, 178, 103, 8, 24, 20, 2, 169, 125, 34, 18, 156, 163, 42, 26, 3, 255, 25, 112, 79, 39, 177, 7, 124, 93, 250, 119, 129, 150, 71, 173, 80, 137, 59, 254, 136, 60, 229, 110, 96, 62, 47, 85, 138, 200, 152, 84, 117, 155, 95, 244, 49, 67, 199, 135, 6, 17, 118, 176, 224, 145, 73, 37, 101, 185, 196, 123, 239, 128, 219, 243, 188, 167, 114, 116, 61, 70, 109, 172, 132, 100, 253, 87, 151, 133, 74, 220, 142, 115, 245, 81, 51, 54, 48, 194, 107, 146, 43, 182, 131, 144, 148, 164, 166, 232, 56, 65, 1, 31, 28, 149, 99, 19, 58, 55, 230, 130, 143, 111, 82, 186, 211, 190, 174, 157, 27, 23, 76, 141, 189, 161, 208, 209, 160, 97, 171, 29, 78, 35, 191, 159, 86, 168, 162, 233, 64, 140, 68, 127, 170, 179, 121, 187, 10, 235, 134, 207, 83, 222, 242, 0, 41, 52, 75, 231, 57, 192, 126, 206, 89, 21, 45, 108, 158, 105, 88, 92, 193, 98, 195, 106, 197, 198, 69, 72, 201, 202, 203, 204, 205, 15, 94, 36, 5, 210, 12, 212, 213, 214, 215, 216, 217, 218, 38, 102, 221, 139, 13, 91, 225, 226, 227, 228, 53, 104, 180, 120, 183, 234, 33, 236, 237, 238, 154, 240, 241, 175, 90, 66, 16, 246, 247, 248, 249, 153, 251, 4, 44, 50, 9], 64) := by decide
  have h7 : List.foldl (ksaStep [83, 101, 99, 114, 101, 116]) ([46, 181, 30, 147, 252, 63, 184, 113, 165, 32, 122, 14, 40, 223, 77, 22, 11, 178, 103, 8, 24, 20, 2, 169, 125, 34, 18, 156, 163, 42, 26, 3, 255, 25, 112, 79, 39, 177, 7, 124, 93, 250, 119, 129, 150, 71, 173, 80, 137, 59, 254, 136, 60, 229, 110, 96, 62, 47, 85, 138, 200, 152, 84, 117, 155, 95, 244, 49, 67, 199, 135, 6, 17, 118, 176, 224, 145, 73, 37, 101, 185, 196, 123, 239, 128, 219, 243, 188, 167, 114, 116, 61, 70, 109, 172, 132, 100, 253, 87, 151, 133, 74, 220, 142, 115, 245, 81, 51, 54, 48, 194, 107, 146, 43, 182, 131, 144, 148, 164, 166, 232, 56, 65, 1, 31, 28, 149, 99, 19, 58, 55, 230, 130, 143, 111, 82, 186, 211, 190, 174, 157, 27, 23, 76, 141, 189, 161, 208, 209, 160, 97, 171, 29, 78, 35, 191, 159, 86, 168, 162, 233, 64, 140, 68, 127, 170, 179, 121, 187, 10, 235, 134, 207, 83, 222, 242, 0, 41, 52, 75, 231, 57, 192, 126, 206, 89, 21, 45, 108, 158, 105, 88, 92, 193, 98, 195, 106, 197, 198, 69, 72, 201, 202, 203, 204, 205, 15, 94, 36, 5, 210, 12, 212, 213, 214, 215, 216, 217, 218, 38, 102, 221, 139, 13, 91, 225, 226, 227, 228, 53, 104, 180, 120, 183, 234, 33, 236, 237, 238, 154, 240, 241, 175, 90, 66, 16, 246, 247, 248, 249, 153, 251, 4, 44, 50, 9], 64) [192, 193, 194, 195, 196, 197, 198, 199, 200, 201, 202, 203, 204, 205, 206, 207, 208, 209, 210, 211, 212, 213, 214, 215, 216, 217, 218, 219, 220, 221, 222, 223]
      = ([46, 181, 30, 147, 38, 63, 184, 113, 165, 32, 122, 14, 40, 223, 77, 195, 11, 178, 214, 8, 24, 193, 2, 197, 125, 34, 18, 156, 163, 42, 26, 3, 221, 25, 112, 79, 39, 177, 7, 124, 93, 250, 119, 129, 150, 71, 203, 80, 198, 59, 254, 136, 60, 229, 110, 96, 62, 47, 85, 138, 200, 152, 84, 117, 155, 95, 244, 49, 67, 199, 135, 6, 17, 118, 36, 224, 145, 204, 37, 13, 185, 196, 123, 239, 128, 219, 243, 188, 167, 12, 116, 213, 70, 109, 172, 132, 100, 253, 87, 151, 133, 74, 220, 142, 115, 245, 81, 51, 69, 48, 194, 107, 146, 43, 182, 131, 144, 148, 164, 166, 232, 56, 65, 1, 31, 28, 149, 205, 19, 58, 55, 230, 130, 72, 216, 82, 186, 211, 190, 174, 157, 27, 23, 76, 212, 189, 161, 208, 209, 160, 97, 171, 29, 78, 35, 191, 159, 86, 168, 162, 233, 64, 140, 68, 127, 170, 179, 121, 187, 10, 235, 134, 207, 83, 222, 242, 0, 41, 52, 75, 231, 57, 192, 126, 206, 89, 21, 45, 108, 158, 105, 88, 201, 94, 218, 5, 217, 169, 137, 98, 143, 154, 92, 173, 73, 99, 241, 102, 176, 22, 120, 114, 141, 215, 103, 61, 111, 139, 54, 252, 20, 106, 255, 101, 91, 225, 226, 227, 228, 53, 104, 180, 210, 183, 234, 33, 236, 237, 238, 202, 240, 15, 175, 90, 66, 16, 246, 247, 248, 249, 153, 251, 4, 44, 50, 9], 79) := by decide
  have h8 : List.foldl (ksaStep [83, 101, 99, 114, 101, 116]) ([46, 181, 30, 147, 38, 63, 184, 113, 165, 32, 122, 14, 40, 223, 77, 195, 11, 178, 214, 8, 24, 193, 2, 197, 125, 34, 18, 156, 163, 42, 26, 3, 221, 25, 112, 79, 39, 177, 7, 124, 93, 250, 119, 129, 150, 71, 203, 80, 198, 59, 254, 136, 60, 229, 110, 96, 62, 47, 85, 138, 200, 152, 84, 117, 155, 95, 244, 49, 67, 199, 135, 6, 17, 118, 36, 224, 145, 204, 37, 13, 185, 196, 123, 239, 128, 219, 243, 188, 167, 12, 116, 213, 70, 109, 172, 132, 100, 253, 87, 151, 133, 74, 220, 142, 115, 245, 81, 51, 69, 48, 194, 107, 146, 43, 182, 131, 144, 148, 164, 166, 232, 56, 65, 1, 31, 28, 149, 205, 19, 58, 55, 230, 130, 72, 216, 82, 186, 211, 190, 174, 157, 27, 23, 76, 212, 189, 161, 208, 209, 160, 97, 171, 29, 78, 35, 191, 159, 86, 168, 162, 233, 64, 140, 68, 127, 170, 179, 121, 187, 10, 235, 134, 207, 83, 222, 242, 0, 41, 52, 75, 231, 57, 192, 126, 206, 89, 21, 45, 108, 158, 105, 88, 201, 94, 218, 5, 217, 169, 137, 98, 143, 154, 92, 173, 73, 99, 241, 102, 176, 22, 120, 114, 141, 215, 103, 61, 111, 139, 54, 252, 20, 106, 255, 101, 91, 225, 226, 227, 228, 53, 104, 180, 210, 183, 234, 33, 236, 237, 238, 202, 240, 15, 175, 90, 66, 16, 246, 247, 248, 249, 153, 251, 4, 44, 50, 9], 79) [224, 225, 226, 227, 228, 229, 230, 231, 232, 233, 234, 235, 236, 237, 238, 239, 240, 241, 242, 243, 244, 245, 246, 247, 248, 249, 250, 251, 252, 253, 254, 255]
      = ([46, 181, 30, 147, 38, 63, 184, 113, 165, 32, 122, 14, 40, 91, 77, 195, 11, 178, 214, 8, 24, 193, 2, 197, 125, 34, 18, 156, 163, 42, 26, 3, 221, 25, 183, 79, 202, 177, 7, 124, 153, 250, 249, 129, 150, 246, 203, 80, 198, 59, 254, 136, 236, 228, 110, 96, 62, 47, 85, 138, 200, 152, 84, 117, 9, 95, 244, 49, 67, 199, 135, 6, 17, 118, 36, 224, 145, 204, 37, 13, 185, 196, 123, 239, 128, 219, 243, 188, 167, 12, 116, 213, 70, 109, 172, 234, 66, 253, 87, 151, 210, 74, 220, 240, 115, 245, 81, 51, 69, 48, 194, 107, 146, 43, 182, 131, 144, 148, 164, 166, 232, 56, 65, 1, 31, 28, 149, 44, 19, 58, 55, 230, 130, 72, 216, 82, 186, 211, 190, 174, 157, 27, 23, 76, 212, 189, 161, 237, 209, 160, 97, 251, 29, 78, 104, 191, 159, 86, 168, 162, 233, 64, 140, 68, 127, 170, 179, 226, 187, 10, 235, 134, 207, 83, 222, 242, 0, 41, 52, 75, 231, 57, 192, 126, 206, 90, 21, 45, 108, 158, 105, 248, 180, 94, 218, 5, 217, 227, 137, 98, 143, 154, 92, 173, 73, 99, 241, 53, 176, 22, 120, 114, 141, 215, 103, 61, 111, 139, 54, 15, 20, 106, 255, 101, 223, 100, 121, 50, 16, 33, 238, 201, 247, 112, 132, 102, 60, 175, 4, 39, 142, 252, 208, 89, 225, 229, 71, 133, 88, 119, 93, 171, 35, 205, 169, 155], 64) := by decide
  unfold ksa
  rw [range256_chunks]
  simp only [List.foldl_append]
  rw [h1, h2, h3, h4, h5, h6, h7, h8]

set_option maxRecDepth 100000 in
set_option maxHeartbeats 2000000 in
/-- First 8 keystream bytes from the scheduled "Secret" state. -/
theorem readSecret_eq : ((RC4RawStream.mk 0 0 [46, 181, 30, 147, 38, 63, 184, 113, 165, 32, 122, 14, 40, 91, 77, 195, 11, 178, 214, 8, 24, 193, 2, 197, 125, 34, 18, 156, 163, 42, 26, 3, 221, 25, 183, 79, 202, 177, 7, 124, 153, 250, 249, 129, 150, 246, 203, 80, 198, 59, 254, 136, 236, 228, 110, 96, 62, 47, 85, 138, 200, 152, 84, 117, 9, 95, 244, 49, 67, 199, 135, 6, 17, 118, 36, 224, 145, 204, 37, 13, 185, 196, 123, 239, 128, 219, 243, 188, 167, 12, 116, 213, 70, 109, 172, 234, 66, 253, 87, 151, 210, 74, 220, 240, 115, 245, 81, 51, 69, 48, 194, 107, 146, 43, 182, 131, 144, 148, 164, 166, 232, 56, 65, 1, 31, 28, 149, 44, 19, 58, 55, 230, 130, 72, 216, 82, 186, 211, 190, 174, 157, 27, 23, 76, 212, 189, 161, 237, 209, 160, 97, 251, 29, 78, 104, 191, 159, 86, 168, 162, 233, 64, 140, 68, 127, 170, 179, 226, 187, 10, 235, 134, 207, 83, 222, 242, 0, 41, 52, 75, 231, 57, 192, 126, 206, 90, 21, 45, 108, 158, 105, 248, 180, 94, 218, 5, 217, 227, 137, 98, 143, 154, 92, 173, 73, 99, 241, 53, 176, 22, 120, 114, 141, 215, 103, 61, 111, 139, 54, 15, 20, 106, 255, 101, 223, 100, 121, 50, 16, 33, 238, 201, 247, 112, 132, 102, 60, 175, 4, 39, 142, 252, 208, 89, 225, 229, 71, 133, 88, 119, 93, 171, 35, 205, 169, 155]).read 8).2
    = [4, 212, 107, 5, 60, 168, 123, 89] := by decide

/-- C4: the generator built from `"Key"` produces `EB9F7781B734CA72A719` as
its first 10 keystream bytes, from `"Wiki"` `6044DB6D41B7` as its first 6,
and from `"Secret"` `04D46B053CA87B59` as its first 8. -/
theorem rc4_known_answer_vectors :
    (RC4RawStream.new [75, 101, 121]).map (fun s => (s.read 10).2)
        = some [235, 159, 119, 129, 183, 52, 202, 114, 167, 25] ∧
    (RC4RawStream.new [87, 105, 107, 105]).map (fun s => (s.read 6).2)
        = some [96, 68, 219, 109, 65, 183] ∧
    (RC4RawStream.new [83, 101, 99, 114, 101, 116]).map (fun s => (s.read 8).2)
        = some [4, 212, 107, 5, 60, 168, 123, 89] := by
  refine ⟨?_, ?_, ?_⟩
  · rw [new_eq_mkGen [75, 101, 121] (by decide)]
    simp only [Option.map_some']
    unfold mkGen
    rw [ksaKey_eq]
    exact congrArg some readKey_eq
  · rw [new_eq_mkGen [87, 105, 107, 105] (by decide)]
    simp only [Option.map_some']
    unfold mkGen
    rw [ksaWiki_eq]
    exact congrArg some readWiki_eq
  · rw [new_eq_mkGen [83, 101, 99, 114, 101, 116] (by decide)]
    simp only [Option.map_some']
    unfold mkGen
    rw [ksaSecret_eq]
    exact congrArg some readSecret_eq

/-- C6: constructing a generator or an adapter with a zero-length key always
fails (no partial or degraded generator is produced): in the source the key
schedule's `key[i % klen]` faults on an empty key, so `new` never returns. -/
theorem rc4_empty_key_rejected (key : List Nat) (d : List Nat) (hk : key.length = 0) :
    RC4RawStream.new key = none ∧ RC4DataStream.new key d = none := by
  have hnil : key = [] := List.eq_nil_of_length_eq_zero hk
  subst hnil
  exact ⟨rfl, rfl⟩

theorem rc4_empty_key_rejected_witness :
    RC4RawStream.new [] = none ∧ RC4DataStream.new [] [3] = none :=
  rc4_empty_key_rejected [] [3] rfl

/-- C9: byte production is total: a raw read always fills the whole requested
buffer (the returned byte list has exactly the requested length), and the
per-byte `read_byte` the adapter unwraps always yields a byte. -/
theorem rc4_byte_production_total (s : RC4RawStream) (n : Nat) :
    (s.read n).2.length = n ∧ s.readByte.2 = some (prgaStep s).2 :=
  ⟨read_len n s, congrArg Prod.snd (readByte_eq s)⟩

/-- C10: for a fixed non-empty key, construction is deterministic (every
construction yields the same generator value) and the keystream is a function
of the key and the number of bytes already produced: the first `n` of `n + m`
produced bytes coincide with the bytes of a production of `n`. -/
theorem rc4_keystream_deterministic (key : List Nat) (n m : Nat) (hk : key ≠ []) :
    RC4RawStream.new key = some (mkGen key) ∧
    ((mkGen key).read (n + m)).2.take n = ((mkGen key).read n).2 := by
  refine ⟨new_eq_mkGen key hk, ?_⟩
  rw [read_split n (mkGen key) m]
  exact List.take_left' (read_len n (mkGen key))

theorem rc4_keystream_deterministic_witness :
    RC4RawStream.new [1] = some (mkGen [1]) ∧
    ((mkGen [1]).read (2 + 3)).2.take 2 = ((mkGen [1]).read 2).2 :=
  rc4_keystream_deterministic [1] 2 3 (by decide)

/-- Chunked adapter reading over a scripted source equals one whole-input
read: auxiliary, generalised over the generator state. -/
theorem readAll_script_flatten : ∀ (cs : List (List Nat)) (g : RC4RawStream) (n : Nat),
    (readAll (scriptSource Unit) ⟨g, cs⟩ n cs.length).1
      = (readAll (scriptSource Unit) ⟨g, [cs.flatten]⟩ n 1).1
  | [], g, n => by simp [readAll, RC4DataStream.read, scriptSource, xorLoop]
  | c :: cs, g, n => by
    have ih := readAll_script_flatten cs (xorLoop g c).1 n
    simp [readAll, RC4DataStream.read, scriptSource, xorLoop_append, ih]

/-- C5: after key scheduling and after any number of byte productions the
state is a permutation of `{0..255}`: no duplicates and every value below
256 present. -/
theorem rc4_state_permutation (key : List Nat) (n v : Nat) (hk : key ≠ []) (hv : v < 256) :
    RC4RawStream.new key = some (mkGen key) ∧
    ((mkGen key).read n).1.state.Perm (List.range 256) ∧
    ((mkGen key).read n).1.state.Nodup ∧
    v ∈ ((mkGen key).read n).1.state := by
  have hst : (mkGen key).state = (ksa key).1 := by simp [mkGen]
  have hperm : ((mkGen key).read n).1.state.Perm (List.range 256) :=
    read_state_perm n (mkGen key) (hst ▸ ksa_state_perm key)
  refine ⟨new_eq_mkGen key hk, hperm, ?_, ?_⟩
  · exact hperm.nodup_iff.mpr (List.nodup_range 256)
  · exact hperm.mem_iff.mpr (List.mem_range.mpr hv)

theorem rc4_state_permutation_witness :
    RC4RawStream.new [1] = some (mkGen [1]) ∧
    ((mkGen [1]).read 2).1.state.Perm (List.range 256) ∧
    ((mkGen [1]).read 2).1.state.Nodup ∧
    7 ∈ ((mkGen [1]).read 2).1.state :=
  rc4_state_permutation [1] 2 7 (by decide) (by decide)

/-- C7: for a non-empty key, the adapter's total output over a source that
delivers the input in any sequence of partial reads equals its output when
the source delivers all bytes in one read: keystream consumption tracks the
bytes emitted, not the number of calls. -/
theorem rc4_chunked_read_correct (key : List Nat) (cs : List (List Nat)) (n : Nat)
    (hk : key ≠ []) :
    RC4RawStream.new key = some (mkGen key) ∧
    (readAll (scriptSource Unit) ⟨mkGen key, cs⟩ n cs.length).1
      = (readAll (scriptSource Unit) ⟨mkGen key, [cs.flatten]⟩ n 1).1 := by
  exact ⟨new_eq_mkGen key hk, readAll_script_flatten cs (mkGen key) n⟩

theorem rc4_chunked_read_correct_witness :
    RC4RawStream.new [1] = some (mkGen [1]) ∧
    (readAll (scriptSource Unit) ⟨mkGen [1], [[1], [2, 3]]⟩ 5 [[1], [2, 3]].length).1
      = (readAll (scriptSource Unit) ⟨mkGen [1], [[[1], [2, 3]].flatten]⟩ 5 1).1 :=
  rc4_chunked_read_correct [1] [[1], [2, 3]] 5 (by decide)

/-- C8: an error from the wrapped source is returned unchanged with the
generator state untouched; a zero-byte (end-of-stream) result is passed
through as the non-error `Ok` of zero bytes, also leaving the generator
untouched. -/
theorem rc4_error_and_eof_passthrough {σ₁ σ₂ ε : Type}
    (rd₁ : SourceRead σ₁ ε) (st₁ : RC4DataStream σ₁) (n₁ : Nat) (e : ε) (d₁ : σ₁)
    (rd₂ : SourceRead σ₂ ε) (st₂ : RC4DataStream σ₂) (n₂ : Nat) (d₂ : σ₂)
    (h₁ : rd₁ st₁.data n₁ = (Except.error e, d₁))
    (h₂ : rd₂ st₂.data n₂ = (Except.ok [], d₂)) :
    RC4DataStream.read rd₁ st₁ n₁ = (Except.error e, ⟨st₁.raw, d₁⟩) ∧
    RC4DataStream.read rd₂ st₂ n₂ = (Except.ok [], ⟨st₂.raw, d₂⟩) := by
  constructor
  · simp [RC4DataStream.read, h₁]
  · simp [RC4DataStream.read, h₂, xorLoop]

theorem rc4_error_and_eof_passthrough_witness :
    RC4DataStream.read (fun (_ : Unit) (_ : Nat) => (Except.error (), ()))
        ⟨⟨0, 0, []⟩, ()⟩ 4
      = (Except.error (), ⟨⟨0, 0, []⟩, ()⟩) ∧
    RC4DataStream.read
        (fun (_ : Unit) (_ : Nat) => ((Except.ok [] : Except Unit (List Nat)), ()))
        ⟨⟨0, 0, []⟩, ()⟩ 4
      = (Except.ok [], ⟨⟨0, 0, []⟩, ()⟩) :=
  rc4_error_and_eof_passthrough _ _ 4 () () _ _ 4 () rfl rfl

/-- C3: for every non-empty key and every byte sequence, reading the data
through one adapter and that output through a second adapter built with the
same key returns exactly the original data. -/
theorem rc4_roundtrip (key D : List Nat) (hk : key ≠ []) :
    ∃ est dst, RC4DataStream.new key D = some est ∧
      RC4DataStream.new key est = some dst ∧
      (RC4DataStream.read (RC4DataStream.read memRead) dst D.length).1
        = Except.ok D := by
  have hlen : ¬ key.length = 0 := by simpa using hk
  refine ⟨⟨mkGen key, D⟩, ⟨mkGen key, ⟨mkGen key, D⟩⟩, ?_, ?_, ?_⟩
  · rw [RC4DataStream.new, RC4RawStream.new, if_neg hlen]; rfl
  · rw [RC4DataStream.new, RC4RawStream.new, if_neg hlen]; rfl
  · simp only [RC4DataStream.read, memRead, List.take_length, List.drop_length]
    have hx1 : (xorLoop (mkGen key) D).2
        = List.zipWith (fun a b => a ^^^ b) D (((mkGen key).read D.length).2) := by
      rw [xorLoop_eq]
    have hlen1 : (xorLoop (mkGen key) D).2.length = D.length := xorLoop_len D (mkGen key)
    have hx2 : (xorLoop (mkGen key) ((xorLoop (mkGen key) D).2)).2
        = List.zipWith (fun a b => a ^^^ b) ((xorLoop (mkGen key) D).2)
            (((mkGen key).read D.length).2) := by
      rw [xorLoop_eq ((xorLoop (mkGen key) D).2) (mkGen key), hlen1]
    rw [hx2, hx1]
    exact congrArg Except.ok
      (zip_xor_cancel D _ (read_len D.length (mkGen key)).symm)

theorem rc4_roundtrip_witness :
    ∃ est dst, RC4DataStream.new [1] [5, 6] = some est ∧
      RC4DataStream.new [1] est = some dst ∧
      (RC4DataStream.read (RC4DataStream.read memRead) dst [5, 6].length).1
        = Except.ok [5, 6] :=
  rc4_roundtrip [1] [5, 6] (by decide)
